import Mathlib

/-!
Verification of the measurement-and-classification engine of the Big-O
calculator repository (`src/calculator.js`).

The development is a shallow embedding of the two core functions:

* `determineComplexity` (the complexity classifier, spec name `classify`),
  embedded over `ℝ`: JavaScript IEEE-754 doubles are idealized as exact
  reals, `Math.log` is `Real.log` and `Math.sqrt` is `Real.sqrt`.
  Rounding error is not modelled; the non-finite double values
  (`Infinity`, `NaN`) are modelled separately by the `JsNum` type below,
  which is used to settle the claims that are about non-finite values.
* `runAnalysis` (the measurement engine, spec name `measure`), embedded
  over `ℚ` (its arithmetic is rational), in a state monad `M` that
  threads the `performance.now` call counter and a ghost trace of the
  observable events (algorithm invocations and clock reads).  The
  algorithm under test is modelled as a function `List ℤ → Except JsErr Unit`
  (it may throw), and the clock as a function `ℕ → ℚ` giving the value
  returned by the k-th `performance.now()` call.

The statistics helpers (`ss.mean`, `ss.variance`, `ss.max`,
`ss.linearRegression`, `ss.linearRegressionLine`) are modelled from the
`simple-statistics` npm dependency: `mean`/`variance`/`max` throw an
`Error` on an empty list and otherwise compute the sample mean, the
population variance and the maximum; `linearRegression` returns the
ordinary-least-squares slope/intercept `(m, b)` computed from the sums
`Σx, Σy, Σxx, Σxy`, with the special case `m = 0, b = y₀` for a
single-element data set.
-/

namespace BigO

/-- Error values of the JavaScript runtime, as observed by callers of the
engine.  `userError` stands for an arbitrary exception thrown by the
algorithm under test (tagged by an integer so that distinct throw sites are
distinguishable).  `statsError` is an `Error` thrown by the
`simple-statistics` library.  The remaining constructors are the error
classes named by the specification (`AlgorithmExecutionError`,
`InvalidSizeError`, `InsufficientDataError`); they exist in this type only
so that the specification's claims about them can be stated — no code in
the repository ever constructs them. -/
inductive JsErr where
  | userError : ℤ → JsErr
  | statsError : String → JsErr
  | algorithmExecutionError : JsErr → JsErr
  | invalidSizeError : JsErr
  | insufficientDataError : JsErr
  deriving DecidableEq, Repr

/-- Recognizer for the specification's `AlgorithmExecutionError` wrapper. -/
def JsErr.isAlgorithmExecutionError : JsErr → Bool
  | .algorithmExecutionError _ => true
  | _ => false

/-! ## The classifier (`determineComplexity`), over exact reals -/

/-- One measured data point `{ n, time }` as consumed by the classifier. -/
structure DataPoint where
  n : ℝ
  time : ℝ

/-- One entry of the classifier's internal `models` array:
`{ type, rmse, complexity }`. -/
structure ModelEntry where
  type : String
  rmse : ℝ
  complexity : ℕ

noncomputable instance : DecidableEq ModelEntry := Classical.decEq _

instance : Inhabited ModelEntry := ⟨⟨"", 0, 0⟩⟩

/-- One entry of the `results` array of the returned object:
`{ type, rmse }`. -/
structure FitEntry where
  type : String
  rmse : ℝ

/-- The object returned by `determineComplexity`:
`{ bestFit, confidence, results }`.  `confidence` is an integer because the
source applies `Math.round` to it. -/
structure AnalysisResult where
  bestFit : String
  confidence : ℤ
  results : List FitEntry

/-- Modelled from the spec and the `simple-statistics` dependency:
`ss.mean` — throws an `Error` on an empty array, otherwise the sample
mean. -/
noncomputable def ssMean (l : List ℝ) : Except JsErr ℝ :=
  if l = [] then .error (.statsError "mean requires at least one data point")
  else .ok (l.sum / l.length)

/-- Modelled from the spec and the `simple-statistics` dependency:
`ss.variance` — throws an `Error` on an empty array, otherwise the
population variance. -/
noncomputable def ssVariance (l : List ℝ) : Except JsErr ℝ :=
  if l = [] then .error (.statsError "variance requires at least one data point")
  else .ok ((l.map (fun x => (x - l.sum / l.length) ^ 2)).sum / l.length)

/-- Modelled from the spec and the `simple-statistics` dependency:
`ss.max` — throws an `Error` on an empty array, otherwise the maximum. -/
noncomputable def ssMax (l : List ℝ) : Except JsErr ℝ :=
  match l with
  | [] => .error (.statsError "max requires at least one data point")
  | x :: xs => .ok (xs.foldl max x)

/-- Modelled from the `simple-statistics` dependency:
`ss.linearRegression` — ordinary least squares through `(x, y)` pairs,
returning the pair `(m, b)`; a single data point gets `m = 0, b = y₀`. -/
noncomputable def ssLinearRegression (data : List (ℝ × ℝ)) : ℝ × ℝ :=
  if data.length = 1 then (0, (data.headI).2)
  else
    let len : ℝ := data.length
    let sumX := (data.map (fun p => p.1)).sum
    let sumY := (data.map (fun p => p.2)).sum
    let sumXX := (data.map (fun p => p.1 * p.1)).sum
    let sumXY := (data.map (fun p => p.1 * p.2)).sum
    let m := (len * sumXY - sumX * sumY) / (len * sumXX - sumX * sumX)
    (m, sumY / len - (m * sumX) / len)

/-- Modelled from the `simple-statistics` dependency:
`ss.linearRegressionLine` — the prediction function `x ↦ m·x + b`. -/
noncomputable def ssLinearRegressionLine (mb : ℝ × ℝ) (x : ℝ) : ℝ :=
  mb.1 * x + mb.2

/-- `calculateRMSE(actual, predicted)` from `src/calculator.js`: the root
mean square error `sqrt(Σ (actualᵢ − predictedᵢ)² / actual.length)`.  The
source iterates over `actual` and indexes into `predicted`; for the lists
of equal length produced by the classifier this is the pointwise zip. -/
noncomputable def calculateRMSE (actual predicted : List ℝ) : ℝ :=
  Real.sqrt ((List.zipWith (fun a p => (a - p) ^ 2) actual predicted).sum /
    actual.length)

/-- JavaScript `x || d` for numbers, in the real-number idealization:
`0` is falsy (the embedding has no `NaN`), every other number is truthy. -/
noncomputable def jsOr (x d : ℝ) : ℝ := if x = 0 then d else x

/-- JavaScript `Math.round`: round half toward positive infinity,
`Math.round x = ⌊x + 1/2⌋`. -/
noncomputable def jsRound (x : ℝ) : ℤ := ⌊x + 1 / 2⌋

/-- Auxiliary for `jsIncludes`: does the first character list start with
the second? -/
def listStartsWith : List Char → List Char → Bool
  | _, [] => true
  | [], _ :: _ => false
  | a :: as, b :: bs => a == b && listStartsWith as bs

/-- Auxiliary for `jsIncludes`: does the first character list contain the
second as a contiguous subsequence? -/
def listContainsSeq : List Char → List Char → Bool
  | [], pat => pat.isEmpty
  | a :: as, pat => listStartsWith (a :: as) pat || listContainsSeq as pat

/-- JavaScript `s.includes(pat)`: substring containment. -/
def jsIncludes (s pat : String) : Bool := listContainsSeq s.toList pat.toList

/-- Stable insertion of `a` into a list sorted ascending by `key`:
`a` goes in front of the first element whose key is not smaller.  Together
with `jsSortBy` this models ES2019+ `Array.prototype.sort` with the
comparator `(a, b) => key a − key b`: for such a consistent comparator the
result is the unique stable, ascending reordering. -/
noncomputable def orderedInsertBy (key : α → ℝ) (a : α) : List α → List α
  | [] => [a]
  | b :: l => if key a ≤ key b then a :: b :: l else b :: orderedInsertBy key a l

/-- Stable sort by a real-valued key; see `orderedInsertBy`. -/
noncomputable def jsSortBy (key : α → ℝ) : List α → List α
  | [] => []
  | a :: l => orderedInsertBy key a (jsSortBy key l)

/-- Helper of `determineComplexity` (`src/calculator.js` lines 114–120):
run a linear regression on `(transform n, time)` and return the RMSE of its
predictions against the observed times. -/
noncomputable def getRegressionRMSE (dataPoints : List DataPoint)
    (transformFn : ℝ → ℝ) : ℝ :=
  let data := dataPoints.map (fun d => (transformFn d.n, d.time))
  let model := ssLinearRegression data
  let predictions := dataPoints.map
    (fun d => ssLinearRegressionLine model (transformFn d.n))
  calculateRMSE (dataPoints.map (fun d => d.time)) predictions

/-- One iteration of the Occam's-razor loop of `determineComplexity`
(`src/calculator.js` lines 151–182).  `models` is the rmse-sorted array
(the loop's `find` runs over it), `meanTime` the mean duration, `best` the
current best model and `candidate` the model at the loop index.  First the
simplicity rule: a strictly simpler candidate replaces the best when
`(candidate.rmse − best.rmse) / (best.rmse || 1e-9) < 0.15`.  Then the
dedicated `O(log n)` vs `O(1)` check on the (possibly updated) best. -/
noncomputable def occamStep (models : List ModelEntry) (meanTime : ℝ)
    (best candidate : ModelEntry) : ModelEntry :=
  let best1 :=
    if candidate.complexity < best.complexity then
      if (candidate.rmse - best.rmse) / jsOr best.rmse (1e-9) < 0.15 then
        candidate
      else best
    else best
  if jsIncludes best1.type "O(log n)" then
    match models.find? (fun m => jsIncludes m.type "O(1)") with
    | some o1 =>
      if o1.rmse < best1.rmse * 3 then
        if best1.rmse / (if meanTime > 0 then meanTime else 1) < 0.1 then o1
        else best1
      else best1
    | none => best1
  else best1

/-- `determineComplexity(dataPoints)` from `src/calculator.js`
(lines 104–250), the complexity classifier (`classify` in the spec).
Fallible because the `simple-statistics` aggregate helpers throw on an
empty input array; every other step is total. -/
noncomputable def determineComplexity (dataPoints : List DataPoint) :
    Except JsErr AnalysisResult := do
  let nValues := dataPoints.map (fun d => d.n)
  let timeValues := dataPoints.map (fun d => d.time)
  let meanTime ← ssMean timeValues
  let constantPredictions := nValues.map (fun _ => meanTime)
  let constantRMSE := calculateRMSE timeValues constantPredictions
  let linearRMSE := getRegressionRMSE dataPoints (fun n => n)
  let quadraticRMSE := getRegressionRMSE dataPoints (fun n => n ^ 2)
  let logRMSE := getRegressionRMSE dataPoints (fun n => Real.log n)
  let nLogNRMSE := getRegressionRMSE dataPoints (fun n => n * Real.log n)
  let models : List ModelEntry :=
    [⟨"O(1) - Constant", constantRMSE, 1⟩,
     ⟨"O(log n) - Logarithmic", logRMSE, 2⟩,
     ⟨"O(n) - Linear", linearRMSE, 3⟩,
     ⟨"O(n log n) - Linear-ithmic", nLogNRMSE, 4⟩,
     ⟨"O(n^2) - Quadratic", quadraticRMSE, 5⟩]
  -- models.sort((a, b) => a.rmse - b.rmse): in-place; all later reads of
  -- `models` see the sorted array.
  let sorted := jsSortBy (fun m => m.rmse) models
  let bestInit := sorted.headI
  let bestLoop := (sorted.drop 1).foldl (occamStep sorted meanTime) bestInit
  let timeVariance ← ssVariance timeValues
  let maxTime ← ssMax timeValues
  let bestModel :=
    if maxTime < 0.001 ∧ timeVariance / meanTime < 0.1 then
      ((sorted.find? (fun m => jsIncludes m.type "O(1)")).getD bestLoop)
    else bestLoop
  let noiseFloor : ℝ := 1e-9
  let confidence : ℝ :=
    if bestModel.rmse < noiseFloor then 100
    else
      let signalMagnitude := if meanTime > 0 then meanTime else 1
      let normalizedError := bestModel.rmse / signalMagnitude
      let fitQuality := max 0 (1 - normalizedError * 2)
      let sortedByFit := jsSortBy (fun m => m.rmse) sorted
      let secondBest : Option ModelEntry :=
        if sortedByFit.headI = bestModel then sortedByFit.get? 1
        else sortedByFit.get? 0
      let separation : ℝ :=
        match secondBest with
        | some sb => min 1 ((sb.rmse - bestModel.rmse) / jsOr sb.rmse 1)
        | none => 0
      (fitQuality * 0.7 + separation * 0.3) * 100
  let results := (jsSortBy (fun r => r.rmse)
    (sorted.map (fun m => ({ type := m.type, rmse := m.rmse } : FitEntry))))
  return { bestFit := bestModel.type,
           confidence := jsRound confidence,
           results := results }

/-! ## The measurement engine (`runAnalysis`), over exact rationals

The engine's arithmetic is rational, so it is embedded computably over `ℚ`.
Two external effects are parameters of the embedding: the algorithm under
test (`alg`, which may throw) and the high-resolution clock (`clock k` is
the value returned by the k-th call of `performance.now()`).  The state
monad `M` threads the clock-call counter together with a ghost trace of
the observable events, so that properties such as "the warm-up invokes the
algorithm 100 times before any timing begins" are statable. -/

/-- One measured data point `{ n, time }` as produced by the engine. -/
structure EnginePoint where
  n : ℤ
  time : ℚ
  deriving DecidableEq, Repr

/-- Observable events of one engine run: an invocation of the algorithm
under test on a workload array, or one `performance.now()` read. -/
inductive Ev where
  | invoke : List ℤ → Ev
  | now : Ev
  deriving DecidableEq, Repr

/-- Engine state: number of `performance.now()` calls made so far, and the
ghost event trace. -/
structure MSt where
  tick : ℕ
  trace : List Ev
  deriving DecidableEq, Repr

/-- The engine monad: state plus JavaScript exceptions (an uncaught
exception aborts the run, so the state is discarded on error). -/
def M (α : Type) := MSt → Except JsErr (α × MSt)

instance : Monad M where
  pure a := fun s => .ok (a, s)
  bind x f := fun s =>
    match x s with
    | .error e => .error e
    | .ok (a, s1) => f a s1

/-- Lift a pure fallible computation (a library call that may throw) into
the engine monad. -/
def liftE (x : Except JsErr α) : M α := fun s =>
  match x with
  | .ok a => .ok (a, s)
  | .error e => .error e

/-- Read `performance.now()`: returns the next clock value and records the
event. -/
def mNow (clock : ℕ → ℚ) : M ℚ := fun s =>
  .ok (clock s.tick, ⟨s.tick + 1, s.trace ++ [.now]⟩)

/-- Invoke the algorithm under test on a workload array, recording the
event; an exception thrown by the algorithm aborts the run. -/
def mInvoke (alg : List ℤ → Except JsErr Unit) (arr : List ℤ) : M Unit :=
  fun s =>
    match alg arr with
    | .ok _ => .ok ((), ⟨s.tick, s.trace ++ [.invoke arr]⟩)
    | .error e => .error e

/-- Run an action a fixed number of times, discarding results (the
source's counted `for` loops around `algorithm(...)`). -/
def repeatM (act : M Unit) : ℕ → M Unit
  | 0 => pure ()
  | k + 1 => do
    act
    repeatM act k

/-- `generateInputArray(n)` from `src/calculator.js`:
`Array.from({ length: n }, (_, i) => i)`.  ECMAScript coerces the length
through `ToLength`, which clamps negative values to `0`, so a negative `n`
yields the empty array. -/
def generateInputArray (n : ℤ) : List ℤ :=
  (List.range n.toNat).map Int.ofNat

/-- Modelled from the `simple-statistics` dependency: `ss.mean` over the
engine's rational time samples. -/
def ssMeanQ (l : List ℚ) : Except JsErr ℚ :=
  if l = [] then .error (.statsError "mean requires at least one data point")
  else .ok (l.sum / l.length)

/-- JavaScript `x || d` for rational numbers: `0` is falsy. -/
def jsOrQ (x d : ℚ) : ℚ := if x = 0 then d else x

/-- The calibration `while` loop of `runAnalysis` (`src/calculator.js`
lines 46–53): `while ((calEnd - calStart) < 5 && calCount < 1000000)`
invoke the algorithm on the same array, bump `calCount`, re-read the
clock.  The loop is embedded with a fuel argument that carries the
`calCount < 1000000` conjunct of the guard: it is entered with
`fuel = 1000000` and `calCount = 0` and the invariant
`fuel + calCount = 1000000` holds at every iteration, so running out of
fuel is exactly the source's invocation-count safety cap. -/
def calLoop (alg : List ℤ → Except JsErr Unit) (clock : ℕ → ℚ)
    (arr : List ℤ) (calStart : ℚ) : ℕ → ℚ → ℕ → M (ℚ × ℕ)
  | 0, calEnd, calCount => pure (calEnd, calCount)
  | fuel + 1, calEnd, calCount =>
    if calEnd - calStart < 5 then do
      mInvoke alg arr
      let e ← mNow clock
      calLoop alg clock arr calStart fuel e (calCount + 1)
    else pure (calEnd, calCount)

/-- The timed-batches loop of `runAnalysis` (`src/calculator.js` lines
63–77): for each of `iterations` repetitions, generate a fresh workload,
read the clock, run `batchSize` invocations back to back, read the clock
again and record `(end - start) / batchSize`.  A non-positive `batchSize`
(possible only with a non-monotone clock) runs an empty batch, as the
JavaScript `for` loop would. -/
def runIters (alg : List ℤ → Except JsErr Unit) (clock : ℕ → ℚ)
    (n : ℤ) (batchSize : ℤ) : ℕ → M (List ℚ)
  | 0 => pure []
  | k + 1 => do
    let array := generateInputArray n
    let start ← mNow clock
    repeatM (mInvoke alg array) batchSize.toNat
    let endT ← mNow clock
    let rest ← runIters alg clock n batchSize k
    pure (((endT - start) / (batchSize : ℚ)) :: rest)

/-- The body of the per-size loop of `runAnalysis` (`src/calculator.js`
lines 34–82): calibration, batch-size computation
`Math.ceil((15 * calCount) / (calDuration || 0.001))` when more than one
calibration invocation was needed, timed batches, and aggregation of the
samples with `ss.mean`. -/
def measureOne (alg : List ℤ → Except JsErr Unit) (clock : ℕ → ℚ)
    (iterations : ℕ) (n : ℤ) : M EnginePoint := do
  let calibrationArray := generateInputArray n
  let calStart ← mNow clock
  let r ← calLoop alg clock calibrationArray calStart 1000000 calStart 0
  let calDuration := r.1 - calStart
  let batchSize : ℤ :=
    if 1 < r.2 then ⌈(15 * (r.2 : ℚ)) / jsOrQ calDuration (1 / 1000)⌉ else 1
  let times ← runIters alg clock n batchSize iterations
  let avgTime ← liftE (ssMeanQ times)
  pure ⟨n, avgTime⟩

/-- The per-size `for (const n of inputSizes)` loop of `runAnalysis`,
pushing one data point per requested size in request order. -/
def runSizes (alg : List ℤ → Except JsErr Unit) (clock : ℕ → ℚ)
    (iterations : ℕ) : List ℤ → M (List EnginePoint)
  | [] => pure []
  | n :: rest => do
    let p ← measureOne alg clock iterations n
    let ps ← runSizes alg clock iterations rest
    pure (p :: ps)

/-- The warm-up phase of `runAnalysis` (`src/calculator.js` lines 25–32):
if the size list is non-empty, invoke the algorithm 100 times on the
workload generated for `inputSizes[0]` (the first requested size),
discarding results. -/
def warmup (alg : List ℤ → Except JsErr Unit) (sizes : List ℤ) : M Unit :=
  if 0 < sizes.length then
    repeatM (mInvoke alg (generateInputArray sizes.headI)) 100
  else pure ()

/-- `runAnalysis(algorithm, inputSizes, iterations = 10)` from
`src/calculator.js` (lines 21–86), the measurement engine (`measure` in
the spec): warm-up followed by the per-size measurement loop. -/
def runAnalysis (alg : List ℤ → Except JsErr Unit) (clock : ℕ → ℚ)
    (sizes : List ℤ) (iterations : ℕ) : M (List EnginePoint) := do
  warmup alg sizes
  runSizes alg clock iterations sizes

/-- Modelled from the spec: the warm-up as the specification describes it
— "generate the workload for the *smallest* requested size and invoke
`algorithm` on it a fixed number of times (≥ 50)".  It differs from the
source's `warmup` only in which size is warmed (the minimum of the list
instead of its first element); it exists to exhibit the divergence between
the two. -/
def warmupSpec (alg : List ℤ → Except JsErr Unit) (sizes : List ℤ) : M Unit :=
  if 0 < sizes.length then
    repeatM (mInvoke alg (generateInputArray (sizes.foldl min sizes.headI))) 100
  else pure ()

/-- Modelled from the spec: `runAnalysis` with the specification's
warm-up (smallest requested size) in place of the source's (first
requested size); used only to exhibit the divergence. -/
def runAnalysisSpecWarm (alg : List ℤ → Except JsErr Unit) (clock : ℕ → ℚ)
    (sizes : List ℤ) (iterations : ℕ) : M (List EnginePoint) := do
  warmupSpec alg sizes
  runSizes alg clock iterations sizes

/-- Initial engine state: no clock reads, empty trace. -/
def st0 : MSt := ⟨0, []⟩

/-! ## JavaScript numbers with the IEEE-754 special values

The real-number embedding above idealizes doubles as exact reals and hence
cannot represent `Infinity` or `NaN`.  `JsNum` restores the special values
(finite doubles stay idealized as exact reals; signed zero is collapsed to
the single real `0`, a convention noted where it matters).  Only the
operations used by the classifier's regression pipeline are defined.  This
model decides the claims about non-finite values, in particular what
happens when a data point with `n = 0` meets the `Math.log` transform. -/
inductive JsNum where
  | num : ℝ → JsNum
  | posInf : JsNum
  | negInf : JsNum
  | nan : JsNum

instance : Inhabited JsNum := ⟨.nan⟩

/-- IEEE addition with special values. -/
noncomputable def jsnAdd : JsNum → JsNum → JsNum
  | .nan, _ => .nan
  | _, .nan => .nan
  | .num a, .num b => .num (a + b)
  | .posInf, .negInf => .nan
  | .negInf, .posInf => .nan
  | .posInf, _ => .posInf
  | .negInf, _ => .negInf
  | .num _, .posInf => .posInf
  | .num _, .negInf => .negInf

/-- IEEE negation with special values. -/
noncomputable def jsnNeg : JsNum → JsNum
  | .nan => .nan
  | .num a => .num (-a)
  | .posInf => .negInf
  | .negInf => .posInf

/-- IEEE subtraction: `a − b = a + (−b)`. -/
noncomputable def jsnSub (a b : JsNum) : JsNum := jsnAdd a (jsnNeg b)

/-- IEEE multiplication with special values; `0 · ±∞ = NaN`. -/
noncomputable def jsnMul : JsNum → JsNum → JsNum
  | .nan, _ => .nan
  | _, .nan => .nan
  | .num a, .num b => .num (a * b)
  | .num a, .posInf =>
      if 0 < a then .posInf else if a < 0 then .negInf else .nan
  | .num a, .negInf =>
      if 0 < a then .negInf else if a < 0 then .posInf else .nan
  | .posInf, .num b =>
      if 0 < b then .posInf else if b < 0 then .negInf else .nan
  | .negInf, .num b =>
      if 0 < b then .negInf else if b < 0 then .posInf else .nan
  | .posInf, .posInf => .posInf
  | .posInf, .negInf => .negInf
  | .negInf, .posInf => .negInf
  | .negInf, .negInf => .posInf

/-- IEEE division with special values; `±∞ / ±∞ = NaN`, `0/0 = NaN`,
division of a nonzero finite number by zero gives an infinity (the single
real zero is treated as `+0`). -/
noncomputable def jsnDiv : JsNum → JsNum → JsNum
  | .nan, _ => .nan
  | _, .nan => .nan
  | .num a, .num b =>
      if b = 0 then
        if a = 0 then .nan else if 0 < a then .posInf else .negInf
      else .num (a / b)
  | .num _, .posInf => .num 0
  | .num _, .negInf => .num 0
  | .posInf, .num b => if b < 0 then .negInf else .posInf
  | .negInf, .num b => if b < 0 then .posInf else .negInf
  | .posInf, _ => .nan
  | .negInf, _ => .nan

/-- JavaScript `Math.sqrt` with special values. -/
noncomputable def jsnSqrt : JsNum → JsNum
  | .nan => .nan
  | .num a => if a < 0 then .nan else .num (Real.sqrt a)
  | .posInf => .posInf
  | .negInf => .nan

/-- JavaScript `Math.log` with special values: `Math.log 0 = -Infinity`,
`Math.log x = NaN` for `x < 0`. -/
noncomputable def jsnLog : JsNum → JsNum
  | .nan => .nan
  | .num a => if a < 0 then .nan else if a = 0 then .negInf else .num (Real.log a)
  | .posInf => .posInf
  | .negInf => .nan

/-- Left-to-right sum, as the accumulating `+=` loops of the statistics
library compute it. -/
noncomputable def jsnSum (l : List JsNum) : JsNum := l.foldl jsnAdd (.num 0)

/-- `ss.linearRegression` over `JsNum` (same formula as
`ssLinearRegression`, with IEEE special-value arithmetic). -/
noncomputable def jsnLinearRegression (data : List (JsNum × JsNum)) :
    JsNum × JsNum :=
  if data.length = 1 then (.num 0, (data.headI).2)
  else
    let len : JsNum := .num data.length
    let sumX := jsnSum (data.map (fun p => p.1))
    let sumY := jsnSum (data.map (fun p => p.2))
    let sumXX := jsnSum (data.map (fun p => jsnMul p.1 p.1))
    let sumXY := jsnSum (data.map (fun p => jsnMul p.1 p.2))
    let m := jsnDiv (jsnSub (jsnMul len sumXY) (jsnMul sumX sumY))
      (jsnSub (jsnMul len sumXX) (jsnMul sumX sumX))
    (m, jsnSub (jsnDiv sumY len) (jsnDiv (jsnMul m sumX) len))

/-- `calculateRMSE` over `JsNum`. -/
noncomputable def jsnCalculateRMSE (actual predicted : List JsNum) : JsNum :=
  jsnSqrt (jsnDiv
    (jsnSum (List.zipWith (fun a p => jsnMul (jsnSub a p) (jsnSub a p))
      actual predicted))
    (.num actual.length))

/-- `getRegressionRMSE` over `JsNum`: the data points are given as real
pairs `(n, time)` (finite doubles); the transform may produce special
values. -/
noncomputable def jsnGetRegressionRMSE (dataPoints : List (ℝ × ℝ))
    (transformFn : ℝ → JsNum) : JsNum :=
  let data := dataPoints.map (fun d => (transformFn d.1, JsNum.num d.2))
  let model := jsnLinearRegression data
  let predictions := dataPoints.map
    (fun d => jsnAdd (jsnMul model.1 (transformFn d.1)) model.2)
  jsnCalculateRMSE (dataPoints.map (fun d => JsNum.num d.2)) predictions

/-- The Logarithmic model's transform `n ↦ Math.log n` over `JsNum`. -/
noncomputable def jsnLogTr (n : ℝ) : JsNum := jsnLog (.num n)

/-- The Linearithmic model's transform `n ↦ n * Math.log n` over `JsNum`. -/
noncomputable def jsnNLogNTr (n : ℝ) : JsNum := jsnMul (.num n) (jsnLog (.num n))

/-! ## State-threaded classifier, for the frame property

`determineComplexityST` is `determineComplexity` with the input array
threaded as mutable state: every access the source makes to `dataPoints`
(the four `.map` traversals and the per-model transform/prediction
traversals) goes through `readMap`, and any mutation would have to replace
the state.  That the final state equals the initial input is the formal
content of "the classifier never mutates its input". -/

/-- Monad of computations over the mutable `dataPoints` array:
state (the array) plus JavaScript exceptions. -/
def N (α : Type) := List DataPoint → Except JsErr (α × List DataPoint)

instance : Monad N where
  pure a := fun s => .ok (a, s)
  bind x f := fun s =>
    match x s with
    | .error e => .error e
    | .ok (a, s1) => f a s1

/-- An ECMAScript `dataPoints.map(f)` call: a pure read of the array. -/
def readMap (f : DataPoint → α) : N (List α) := fun s => .ok (s.map f, s)

/-- Lift a fallible library call into `N`. -/
def liftN (x : Except JsErr α) : N α := fun s =>
  match x with
  | .ok a => .ok (a, s)
  | .error e => .error e

/-- `getRegressionRMSE` with its two `dataPoints.map` traversals threaded
through the state. -/
noncomputable def getRegressionRMSEst (timeValues : List ℝ)
    (transformFn : ℝ → ℝ) : N ℝ := do
  let data ← readMap (fun d => (transformFn d.n, d.time))
  let model := ssLinearRegression data
  let predictions ← readMap
    (fun d => ssLinearRegressionLine model (transformFn d.n))
  pure (calculateRMSE timeValues predictions)

/-- `determineComplexity` with every access to the input array threaded
through the state monad `N`; see the section comment. -/
noncomputable def determineComplexityST : N AnalysisResult := do
  let nValues ← readMap (fun d => d.n)
  let timeValues ← readMap (fun d => d.time)
  let meanTime ← liftN (ssMean timeValues)
  let constantPredictions := nValues.map (fun _ => meanTime)
  let constantRMSE := calculateRMSE timeValues constantPredictions
  let linearRMSE ← getRegressionRMSEst timeValues (fun n => n)
  let quadraticRMSE ← getRegressionRMSEst timeValues (fun n => n ^ 2)
  let logRMSE ← getRegressionRMSEst timeValues (fun n => Real.log n)
  let nLogNRMSE ← getRegressionRMSEst timeValues (fun n => n * Real.log n)
  let models : List ModelEntry :=
    [⟨"O(1) - Constant", constantRMSE, 1⟩,
     ⟨"O(log n) - Logarithmic", logRMSE, 2⟩,
     ⟨"O(n) - Linear", linearRMSE, 3⟩,
     ⟨"O(n log n) - Linear-ithmic", nLogNRMSE, 4⟩,
     ⟨"O(n^2) - Quadratic", quadraticRMSE, 5⟩]
  let sorted := jsSortBy (fun m => m.rmse) models
  let bestInit := sorted.headI
  let bestLoop := (sorted.drop 1).foldl (occamStep sorted meanTime) bestInit
  let timeVariance ← liftN (ssVariance timeValues)
  let maxTime ← liftN (ssMax timeValues)
  let bestModel :=
    if maxTime < 0.001 ∧ timeVariance / meanTime < 0.1 then
      ((sorted.find? (fun m => jsIncludes m.type "O(1)")).getD bestLoop)
    else bestLoop
  let noiseFloor : ℝ := 1e-9
  let confidence : ℝ :=
    if bestModel.rmse < noiseFloor then 100
    else
      let signalMagnitude := if meanTime > 0 then meanTime else 1
      let normalizedError := bestModel.rmse / signalMagnitude
      let fitQuality := max 0 (1 - normalizedError * 2)
      let sortedByFit := jsSortBy (fun m => m.rmse) sorted
      let secondBest : Option ModelEntry :=
        if sortedByFit.headI = bestModel then sortedByFit.get? 1
        else sortedByFit.get? 0
      let separation : ℝ :=
        match secondBest with
        | some sb => min 1 ((sb.rmse - bestModel.rmse) / jsOr sb.rmse 1)
        | none => 0
      (fitQuality * 0.7 + separation * 0.3) * 100
  let results := (jsSortBy (fun r => r.rmse)
    (sorted.map (fun m => ({ type := m.type, rmse := m.rmse } : FitEntry))))
  return { bestFit := bestModel.type,
           confidence := jsRound confidence,
           results := results }

/-- Projection used to state claims about the confidence of a
classification that is known to succeed. -/
noncomputable def confOf (r : Except JsErr AnalysisResult) : ℤ :=
  match r with
  | .ok a => a.confidence
  | .error _ => 0

/-- Projection used to state claims about the best fit of a classification
that is known to succeed. -/
noncomputable def bestFitOf (r : Except JsErr AnalysisResult) : String :=
  match r with
  | .ok a => a.bestFit
  | .error _ => ""

/-! ## Concrete test fixtures -/

/-- The spec's perfectly flat example series
`[(10,1.0),(100,1.0),(1000,1.0),(10000,1.0)]`. -/
noncomputable def ptsFlat : List DataPoint :=
  [⟨10, 1⟩, ⟨100, 1⟩, ⟨1000, 1⟩, ⟨10000, 1⟩]

/-- A measured series with length-3, non-negative sizes and durations on
which the classifier's confidence comes out negative: the Occam scan walks
the best model from Quadratic down to Constant (each step within the 15%
tolerance), the fit quality bottoms out at 0, and the unclamped-below
separation term is negative. -/
noncomputable def ptsA : List DataPoint := [⟨2, 0⟩, ⟨4, 1⟩, ⟨16, 0⟩]

/-- Durations generated from the exact linear model `time = n + 100` with
additive noise `(-3, 4, -4, 3)` (at most 4 against durations around 100),
chosen so that the quadratic fit's RMSE is marginally lower than the
linear fit's (within the 15% tolerance). -/
noncomputable def ptsB : List DataPoint :=
  [⟨2, 99⟩, ⟨4, 108⟩, ⟨16, 112⟩, ⟨32, 135⟩]

/-- A series containing an entry with `n = 0`, for the claims about the
logarithmic transforms (`(n, time)` pairs of finite doubles). -/
noncomputable def ptsZero : List (ℝ × ℝ) := [(0, 1), (2, 2), (4, 3)]

/-- `ptsZero` as classifier input. -/
noncomputable def ptsZeroDP : List DataPoint := [⟨0, 1⟩, ⟨2, 2⟩, ⟨4, 3⟩]

/-- An algorithm under test that never throws. -/
def algOk : List ℤ → Except JsErr Unit := fun _ => .ok ()

/-- An algorithm under test that always throws the same exception. -/
def algThrow7 : List ℤ → Except JsErr Unit := fun _ => .error (.userError 7)

/-- An algorithm under test that throws an exception tagged with the
length of the workload it was invoked on — which size's workload reached
it first is read off the surfaced error. -/
def algSizeErr : List ℤ → Except JsErr Unit :=
  fun arr => .error (.userError arr.length)

/-- A clock advancing 10 time units per read: calibration finishes after a
single invocation. -/
def clkFast : ℕ → ℚ := fun k => 10 * k

/-- A clock that never advances. -/
def clkZero : ℕ → ℚ := fun _ => 0

/-- Decidable equality of engine results, for concrete evaluations. -/
instance {ε α : Type _} [DecidableEq ε] [DecidableEq α] :
    DecidableEq (Except ε α) := fun a b =>
  match a, b with
  | .ok x, .ok y =>
    if h : x = y then isTrue (by rw [h]) else
      isFalse (by intro hc; exact h (Except.ok.inj hc))
  | .error x, .error y =>
    if h : x = y then isTrue (by rw [h]) else
      isFalse (by intro hc; exact h (Except.error.inj hc))
  | .ok _, .error _ => isFalse (by intro hc; exact Except.noConfusion hc)
  | .error _, .ok _ => isFalse (by intro hc; exact Except.noConfusion hc)

/-! ## Generic lemmas about the embedding -/

@[simp]
theorem jsOkBind (a : α) (f : α → Except JsErr β) :
    (Except.ok a >>= f) = f a := rfl

@[simp]
theorem jsErrBind (e : JsErr) (f : α → Except JsErr β) :
    ((Except.error e : Except JsErr α) >>= f) = Except.error e := rfl

@[simp]
theorem jsIncludes_const_log : jsIncludes "O(1) - Constant" "O(log n)" = false := by
  decide

@[simp]
theorem jsIncludes_log_log : jsIncludes "O(log n) - Logarithmic" "O(log n)" = true := by
  decide

@[simp]
theorem jsIncludes_lin_log : jsIncludes "O(n) - Linear" "O(log n)" = false := by
  decide

@[simp]
theorem jsIncludes_nlogn_log :
    jsIncludes "O(n log n) - Linear-ithmic" "O(log n)" = false := by
  decide

@[simp]
theorem jsIncludes_quad_log : jsIncludes "O(n^2) - Quadratic" "O(log n)" = false := by
  decide

@[simp]
theorem jsIncludes_const_one : jsIncludes "O(1) - Constant" "O(1)" = true := by
  decide

@[simp]
theorem jsIncludes_log_one : jsIncludes "O(log n) - Logarithmic" "O(1)" = false := by
  decide

@[simp]
theorem jsIncludes_lin_one : jsIncludes "O(n) - Linear" "O(1)" = false := by
  decide

@[simp]
theorem jsIncludes_nlogn_one :
    jsIncludes "O(n log n) - Linear-ithmic" "O(1)" = false := by
  decide

@[simp]
theorem jsIncludes_quad_one : jsIncludes "O(n^2) - Quadratic" "O(1)" = false := by
  decide

theorem ssMean_ne_nil (l : List ℝ) (h : l ≠ []) :
    ssMean l = .ok (l.sum / l.length) := by
  simp [ssMean, h]

theorem ssVariance_ne_nil (l : List ℝ) (h : l ≠ []) :
    ssVariance l =
      .ok ((l.map (fun x => (x - l.sum / l.length) ^ 2)).sum / l.length) := by
  simp [ssVariance, h]

theorem ssMax_cons (x : ℝ) (xs : List ℝ) :
    ssMax (x :: xs) = .ok (xs.foldl max x) := rfl

theorem calculateRMSE_self (l : List ℝ) : calculateRMSE l l = 0 := by
  have hz : List.zipWith (fun a p => (a - p) ^ 2) l l =
      l.map (fun _ => (0 : ℝ)) := by
    rw [List.zipWith_same]
    exact List.map_congr_left (fun a _ => by ring)
  rw [calculateRMSE, hz]
  simp

theorem calculateRMSE_nonneg (a p : List ℝ) : 0 ≤ calculateRMSE a p :=
  Real.sqrt_nonneg _

theorem getRegressionRMSE_nonneg (pts : List DataPoint) (f : ℝ → ℝ) :
    0 ≤ getRegressionRMSE pts f :=
  Real.sqrt_nonneg _

theorem ssLinearRegression_const (data : List (ℝ × ℝ)) (c : ℝ)
    (h1 : data.length ≠ 1) (h0 : data ≠ [])
    (hy : ∀ p ∈ data, p.2 = c) :
    ssLinearRegression data = (0, c) := by
  have hlen : (data.length : ℝ) ≠ 0 :=
    Nat.cast_ne_zero.mpr (Nat.pos_iff_ne_zero.mp (List.length_pos.mpr h0))
  have hmapy : data.map (fun p => p.2) = List.replicate data.length c := by
    have := List.eq_replicate_of_mem
      (l := data.map (fun p => p.2)) (a := c) ?_
    · simpa using this
    · intro b hb
      obtain ⟨p, hp, rfl⟩ := List.mem_map.mp hb
      exact hy p hp
  have hsumy : (data.map (fun p => p.2)).sum = (data.length : ℝ) * c := by
    rw [hmapy, List.sum_replicate, nsmul_eq_mul]
  have hxy : (data.map (fun p => p.1 * p.2)).sum =
      (data.map (fun p => p.1)).sum * c := by
    rw [List.map_congr_left (g := fun p : ℝ × ℝ => p.1 * c)
      (fun p hp => by rw [hy p hp])]
    exact List.sum_map_mul_right data (fun p => p.1) c
  rw [ssLinearRegression, if_neg h1]
  simp only [hsumy, hxy]
  have hnum : (data.length : ℝ) * ((data.map (fun p => p.1)).sum * c) -
      (data.map (fun p => p.1)).sum * ((data.length : ℝ) * c) = 0 := by ring
  rw [hnum, zero_div]
  simp only [zero_mul, zero_div, sub_zero]
  rw [mul_div_cancel_left₀ c hlen]

theorem getRegressionRMSE_const_time (pts : List DataPoint) (c : ℝ)
    (f : ℝ → ℝ) (h1 : pts.length ≠ 1) (h0 : pts ≠ [])
    (ht : ∀ d ∈ pts, d.time = c) :
    getRegressionRMSE pts f = 0 := by
  have hdata : ssLinearRegression
      (pts.map (fun d => (f d.n, d.time))) = (0, c) := by
    apply ssLinearRegression_const
    · simpa using h1
    · simpa using h0
    · intro p hp
      obtain ⟨d, hd, rfl⟩ := List.mem_map.mp hp
      exact ht d hd
  rw [getRegressionRMSE]
  simp only [hdata, ssLinearRegressionLine]
  have hpred : pts.map (fun d => (0 : ℝ) * f d.n + c) =
      pts.map (fun _ => c) :=
    List.map_congr_left (fun d _ => by ring)
  have htv : pts.map (fun d => d.time) = pts.map (fun _ => c) :=
    List.map_congr_left ht
  rw [hpred, htv, calculateRMSE_self]

theorem getRegressionRMSE_single (d : DataPoint) (f : ℝ → ℝ) :
    getRegressionRMSE [d] f = 0 := by
  rw [getRegressionRMSE]
  have hdata : ssLinearRegression [(f d.n, d.time)] = (0, d.time) := by
    have hone : ([(f d.n, d.time)] : List (ℝ × ℝ)).length = 1 := rfl
    rw [ssLinearRegression, if_pos hone]
    rfl
  simp only [List.map, hdata, ssLinearRegressionLine]
  have : (0 : ℝ) * f d.n + d.time = d.time := by ring
  rw [this, calculateRMSE_self]

/-- Core evaluation lemma: when the sample mean is `c` and all five model
RMSEs are zero, the classifier returns Constant with confidence 100 and an
all-zero fit list.  (The stable sort keeps the original model order on the
all-equal keys, the Occam scan never moves off the Constant head, the
noise-floor override leaves the choice unchanged either way, and the exact
fit hits the `rmse < 1e-9` confidence branch.) -/
theorem classify_all_zero (pts : List DataPoint) (c : ℝ) (hne : pts ≠ [])
    (hmean : ssMean (pts.map (fun d => d.time)) = .ok c)
    (hconst : calculateRMSE (pts.map (fun d => d.time))
      ((pts.map (fun d => d.n)).map (fun _ => c)) = 0)
    (hlin : getRegressionRMSE pts (fun n => n) = 0)
    (hquad : getRegressionRMSE pts (fun n => n ^ 2) = 0)
    (hlog : getRegressionRMSE pts (fun n => Real.log n) = 0)
    (hnl : getRegressionRMSE pts (fun n => n * Real.log n) = 0) :
    determineComplexity pts = .ok
      ⟨"O(1) - Constant", 100,
       [⟨"O(1) - Constant", 0⟩, ⟨"O(log n) - Logarithmic", 0⟩,
        ⟨"O(n) - Linear", 0⟩, ⟨"O(n log n) - Linear-ithmic", 0⟩,
        ⟨"O(n^2) - Quadratic", 0⟩]⟩ := by
  have hmap_ne : pts.map (fun d => d.time) ≠ [] := by
    simpa using hne
  obtain ⟨x, xs, hx⟩ := List.exists_cons_of_ne_nil hmap_ne
  have hvar := ssVariance_ne_nil (pts.map (fun d => d.time)) hmap_ne
  have hmax : ssMax (pts.map (fun d => d.time)) = .ok (xs.foldl max x) := by
    rw [hx, ssMax_cons]
  have h9 : (0 : ℝ) < 1e-9 := by norm_num
  have hround : jsRound 100 = 100 := by
    rw [jsRound, Int.floor_eq_iff]
    norm_num
  simp only [determineComplexity, hmean, jsOkBind, hconst, hlin, hquad, hlog,
    hnl, hvar, hmax, jsSortBy, orderedInsertBy, le_refl, if_true,
    List.foldl, occamStep, List.drop, List.headI]
  norm_num [List.find?, occamStep, jsRound, ite_self]
  rfl

theorem ssMean_replicate (k : ℕ) (c : ℝ) (hk : k ≠ 0) :
    ssMean (List.replicate k c) = .ok c := by
  have hner : List.replicate k c ≠ [] := by
    intro h
    exact hk (by simpa using congrArg List.length h)
  rw [ssMean_ne_nil _ hner, List.sum_replicate, List.length_replicate,
    nsmul_eq_mul, mul_div_cancel_left₀ c (Nat.cast_ne_zero.mpr hk)]

/-- Classification of a series whose durations are all equal to `c`:
Constant, with confidence 100.  The hypotheses `0 ≤ c`, `1 ≤ n` and
distinctness of the sizes delimit the region where the exact-real
embedding is faithful to IEEE doubles (with `n = 0`, a duplicated size, or
a single transformed abscissa the JavaScript regression produces
`-Infinity`/`NaN` intermediates which `ℝ` cannot represent). -/
theorem flat_classify (pts : List DataPoint) (c : ℝ)
    (hlen : 2 ≤ pts.length) (hc : 0 ≤ c)
    (ht : ∀ d ∈ pts, d.time = c)
    (hn : ∀ d ∈ pts, 1 ≤ d.n)
    (hd : (pts.map (fun d => d.n)).Pairwise (· ≠ ·)) :
    determineComplexity pts = .ok
      ⟨"O(1) - Constant", 100,
       [⟨"O(1) - Constant", 0⟩, ⟨"O(log n) - Logarithmic", 0⟩,
        ⟨"O(n) - Linear", 0⟩, ⟨"O(n log n) - Linear-ithmic", 0⟩,
        ⟨"O(n^2) - Quadratic", 0⟩]⟩ := by
  have hne : pts ≠ [] := by
    rintro rfl
    simp at hlen
  have h1 : pts.length ≠ 1 := by omega
  have hk : pts.length ≠ 0 := by
    intro h
    omega
  have htv : pts.map (fun d => d.time) = List.replicate pts.length c := by
    rw [List.map_congr_left ht, List.map_const']
  apply classify_all_zero pts c hne
  · rw [htv]
    exact ssMean_replicate _ _ hk
  · rw [List.map_const', List.length_map, htv]
    exact calculateRMSE_self _
  · exact getRegressionRMSE_const_time pts c _ h1 hne ht
  · exact getRegressionRMSE_const_time pts c _ h1 hne ht
  · exact getRegressionRMSE_const_time pts c _ h1 hne ht
  · exact getRegressionRMSE_const_time pts c _ h1 hne ht

/-- Classification of a single data point: all five fits are exact, so the
result is Constant with confidence 100 — there is no guard against
too-short inputs.  The hypotheses on `n` and `t` delimit the region where
the exact-real embedding is faithful (see `flat_classify`). -/
theorem classify_single (n t : ℝ) (hn : 1 ≤ n) (ht : 0 ≤ t) :
    determineComplexity [⟨n, t⟩] = .ok
      ⟨"O(1) - Constant", 100,
       [⟨"O(1) - Constant", 0⟩, ⟨"O(log n) - Logarithmic", 0⟩,
        ⟨"O(n) - Linear", 0⟩, ⟨"O(n log n) - Linear-ithmic", 0⟩,
        ⟨"O(n^2) - Quadratic", 0⟩]⟩ := by
  apply classify_all_zero [⟨n, t⟩] t (by simp)
  · rw [ssMean_ne_nil _ (by simp)]
    simp
  · simpa using calculateRMSE_self [t]
  · exact getRegressionRMSE_single _ _
  · exact getRegressionRMSE_single _ _
  · exact getRegressionRMSE_single _ _
  · exact getRegressionRMSE_single _ _

/-- The classifier run on the empty series: the first statistics call
(`ss.mean`) throws, so the result is that library error (and not an
`InsufficientDataError`, which exists only in the specification). -/
theorem classify_nil :
    determineComplexity [] =
      .error (.statsError "mean requires at least one data point") := by
  simp [determineComplexity, ssMean]

/-! ## Claim C5 -/

/-- Claim C5: `classify` on a perfectly flat series — in particular the
spec's example `[(10,1.0),(100,1.0),(1000,1.0),(10000,1.0)]`, and in
general every series of length ≥ 2 with all durations equal — returns
`bestFit = Constant` with `confidence = 100`, the chosen model's RMSE
(zero, below the `1e-9` noise floor) taking the exact-fit confidence
branch.  The hypotheses on the sizes delimit the region where the
exact-real embedding is faithful to doubles; the spec's example satisfies
them (see the witness). -/
theorem claim_C5 (pts : List DataPoint) (c : ℝ)
    (hlen : 2 ≤ pts.length) (hc : 0 ≤ c)
    (ht : ∀ d ∈ pts, d.time = c)
    (hn : ∀ d ∈ pts, 1 ≤ d.n)
    (hd : (pts.map (fun d => d.n)).Pairwise (· ≠ ·)) :
    determineComplexity pts = .ok
      ⟨"O(1) - Constant", 100,
       [⟨"O(1) - Constant", 0⟩, ⟨"O(log n) - Logarithmic", 0⟩,
        ⟨"O(n) - Linear", 0⟩, ⟨"O(n log n) - Linear-ithmic", 0⟩,
        ⟨"O(n^2) - Quadratic", 0⟩]⟩ :=
  flat_classify pts c hlen hc ht hn hd

/-- Witness for C5: the spec's flat example evaluated concretely. -/
theorem claim_C5_witness :
    2 ≤ ptsFlat.length ∧
    determineComplexity ptsFlat = .ok
      ⟨"O(1) - Constant", 100,
       [⟨"O(1) - Constant", 0⟩, ⟨"O(log n) - Logarithmic", 0⟩,
        ⟨"O(n) - Linear", 0⟩, ⟨"O(n log n) - Linear-ithmic", 0⟩,
        ⟨"O(n^2) - Quadratic", 0⟩]⟩ := by
  constructor
  · norm_num [ptsFlat]
  · apply claim_C5 ptsFlat 1
    · norm_num [ptsFlat]
    · norm_num
    · intro d hd
      simp only [ptsFlat, List.mem_cons, List.not_mem_nil, or_false] at hd
      rcases hd with rfl | rfl | rfl | rfl <;> rfl
    · intro d hd
      simp only [ptsFlat, List.mem_cons, List.not_mem_nil, or_false] at hd
      rcases hd with rfl | rfl | rfl | rfl <;> norm_num
    · simp only [ptsFlat, List.map_cons, List.map_nil, List.pairwise_cons,
        List.mem_cons, List.not_mem_nil, or_false, List.Pairwise.nil]
      norm_num

/-! ## Claim C7 -/

/-- Claim C7 (amended): `determineComplexity` has no input-length guard
and no `InsufficientDataError` exists anywhere in the code.  On a
single-point series it silently returns a full `AnalysisResult`
(Constant, confidence 100, every fit exact); on the empty series it fails
with the statistics library's own `mean` error. -/
theorem claim_C7 :
    (∀ n t : ℝ, 1 ≤ n → 0 ≤ t →
      determineComplexity [⟨n, t⟩] = .ok
        ⟨"O(1) - Constant", 100,
         [⟨"O(1) - Constant", 0⟩, ⟨"O(log n) - Logarithmic", 0⟩,
          ⟨"O(n) - Linear", 0⟩, ⟨"O(n log n) - Linear-ithmic", 0⟩,
          ⟨"O(n^2) - Quadratic", 0⟩]⟩) ∧
    determineComplexity [] =
      .error (.statsError "mean requires at least one data point") :=
  ⟨fun n t hn ht => classify_single n t hn ht, classify_nil⟩

/-- Witness for C7 (amended): the single point `(5, 3)`. -/
theorem claim_C7_witness :
    1 ≤ (5 : ℝ) ∧ 0 ≤ (3 : ℝ) ∧
    determineComplexity [⟨5, 3⟩] = .ok
      ⟨"O(1) - Constant", 100,
       [⟨"O(1) - Constant", 0⟩, ⟨"O(log n) - Logarithmic", 0⟩,
        ⟨"O(n) - Linear", 0⟩, ⟨"O(n log n) - Linear-ithmic", 0⟩,
        ⟨"O(n^2) - Quadratic", 0⟩]⟩ :=
  ⟨by norm_num, by norm_num,
    claim_C7.1 5 3 (by norm_num) (by norm_num)⟩

/-- Counterexample for C7 as stated: the singleton series `[(5, 3)]` has
fewer than 2 points, yet `determineComplexity` returns an
`AnalysisResult` instead of raising. -/
theorem claim_C7_counterexample :
    (determineComplexity [⟨(5 : ℝ), (3 : ℝ)⟩]).isOk = true := by
  rw [classify_single 5 3 (by norm_num) (by norm_num)]
  rfl

/-! ## Claim C10 -/

@[simp]
theorem N_bind_apply (x : N α) (f : α → N β) (s : List DataPoint) :
    (x >>= f) s =
      match x s with
      | .error e => .error e
      | .ok (a, s1) => f a s1 := rfl

@[simp]
theorem N_pure_apply (a : α) (s : List DataPoint) :
    (pure a : N α) s = .ok (a, s) := rfl

@[simp]
theorem readMap_apply (f : DataPoint → α) (s : List DataPoint) :
    readMap f s = .ok (s.map f, s) := rfl

@[simp]
theorem liftN_apply (x : Except JsErr α) (s : List DataPoint) :
    liftN x s =
      match x with
      | .ok a => .ok (a, s)
      | .error e => .error e := rfl

/-- Claim C10: the classifier never mutates its input.  Running the
state-threaded classifier — where every access the source makes to the
`dataPoints` array goes through the state — returns the same result as
the pure classifier and leaves the array exactly as it was. -/
theorem claim_C10 (pts : List DataPoint) :
    determineComplexityST pts =
      (determineComplexity pts).map (fun r => (r, pts)) := by
  rw [determineComplexityST, determineComplexity]
  simp only [N_bind_apply, readMap_apply, liftN_apply, getRegressionRMSEst,
    getRegressionRMSE]
  cases hm : ssMean (pts.map fun d => d.time) with
  | error e => rfl
  | ok m =>
    cases hv : ssVariance (pts.map fun d => d.time) with
    | error e => rfl
    | ok v =>
      cases hx : ssMax (pts.map fun d => d.time) with
      | error e => rfl
      | ok mx => rfl

/-! ## Engine lemmas -/

@[simp]
theorem M_bind_apply (x : M α) (f : α → M β) (s : MSt) :
    (x >>= f) s =
      match x s with
      | .error e => .error e
      | .ok (a, s1) => f a s1 := rfl

@[simp]
theorem M_pure_apply (a : α) (s : MSt) : (pure a : M α) s = .ok (a, s) := rfl

@[simp]
theorem mNow_apply (clock : ℕ → ℚ) (s : MSt) :
    mNow clock s = .ok (clock s.tick, ⟨s.tick + 1, s.trace ++ [.now]⟩) := rfl

theorem M_bind_error {x : M α} {f : α → M β} {s : MSt} {e : JsErr}
    (h : (x >>= f) s = .error e) :
    x s = .error e ∨ ∃ a s1, x s = .ok (a, s1) ∧ f a s1 = .error e := by
  rw [M_bind_apply] at h
  cases hx : x s with
  | error e1 =>
    rw [hx] at h
    simp only [Except.error.injEq] at h
    subst h
    exact Or.inl rfl
  | ok p =>
    obtain ⟨a, s1⟩ := p
    rw [hx] at h
    exact Or.inr ⟨a, s1, rfl, h⟩

theorem M_bind_ok {x : M α} {f : α → M β} {s : MSt} {b : β} {s2 : MSt}
    (h : (x >>= f) s = .ok (b, s2)) :
    ∃ a s1, x s = .ok (a, s1) ∧ f a s1 = .ok (b, s2) := by
  rw [M_bind_apply] at h
  cases hx : x s with
  | error e1 =>
    rw [hx] at h
    simp at h
  | ok p =>
    obtain ⟨a, s1⟩ := p
    rw [hx] at h
    exact ⟨a, s1, rfl, h⟩

theorem M_bind_ok_intro {x : M α} {f : α → M β} {s : MSt} {a : α}
    {s1 : MSt} {r : Except JsErr (β × MSt)}
    (hx : x s = .ok (a, s1)) (hf : f a s1 = r) : (x >>= f) s = r := by
  rw [M_bind_apply, hx]
  exact hf

theorem mInvoke_error {alg : List ℤ → Except JsErr Unit} {arr : List ℤ}
    {s : MSt} {e : JsErr} (h : mInvoke alg arr s = .error e) :
    alg arr = .error e := by
  unfold mInvoke at h
  cases halg : alg arr with
  | error e1 =>
    rw [halg] at h
    simp only [Except.error.injEq] at h
    rw [h]
  | ok u =>
    rw [halg] at h
    simp at h

theorem mInvoke_ok {alg : List ℤ → Except JsErr Unit} {arr : List ℤ}
    (halg : alg arr = .ok ()) (s : MSt) :
    mInvoke alg arr s = .ok ((), ⟨s.tick, s.trace ++ [.invoke arr]⟩) := by
  unfold mInvoke
  rw [halg]

theorem mNow_ne_error (clock : ℕ → ℚ) (s : MSt) (e : JsErr) :
    mNow clock s ≠ .error e := by
  simp

theorem liftE_error {x : Except JsErr α} {s : MSt} {e : JsErr}
    (h : liftE x s = .error e) : x = .error e := by
  unfold liftE at h
  cases hx : x with
  | error e1 =>
    rw [hx] at h
    simp only [Except.error.injEq] at h
    rw [h]
  | ok a =>
    rw [hx] at h
    simp at h

theorem repeatM_ok {alg : List ℤ → Except JsErr Unit} {arr : List ℤ}
    (halg : alg arr = .ok ()) :
    ∀ (k : ℕ) (s : MSt),
      repeatM (mInvoke alg arr) k s =
        .ok ((), ⟨s.tick, s.trace ++ List.replicate k (.invoke arr)⟩) := by
  intro k
  induction k with
  | zero =>
    intro s
    cases s
    simp [repeatM]
  | succ k ih =>
    intro s
    rw [repeatM, M_bind_apply, mInvoke_ok halg]
    show repeatM (mInvoke alg arr) k ⟨s.tick, s.trace ++ [.invoke arr]⟩ = _
    rw [ih]
    simp [List.replicate_succ]

theorem repeatM_error {alg : List ℤ → Except JsErr Unit} {arr : List ℤ}
    {e : JsErr} :
    ∀ {k : ℕ} {s : MSt}, repeatM (mInvoke alg arr) k s = .error e →
      alg arr = .error e := by
  intro k
  induction k with
  | zero =>
    intro s h
    simp [repeatM] at h
  | succ k ih =>
    intro s h
    rw [repeatM] at h
    rcases M_bind_error h with h1 | ⟨a, s1, _, h2⟩
    · exact mInvoke_error h1
    · exact ih h2

theorem calLoop_error {alg : List ℤ → Except JsErr Unit} {clock : ℕ → ℚ}
    {arr : List ℤ} {calStart : ℚ} {e : JsErr} :
    ∀ {fuel : ℕ} {calEnd : ℚ} {calCount : ℕ} {s : MSt},
      calLoop alg clock arr calStart fuel calEnd calCount s = .error e →
      alg arr = .error e := by
  intro fuel
  induction fuel with
  | zero =>
    intro ce cc s h
    simp [calLoop] at h
  | succ fuel ih =>
    intro ce cc s h
    rw [calLoop] at h
    by_cases hc : ce - calStart < 5
    · rw [if_pos hc] at h
      rcases M_bind_error h with h1 | ⟨a, s1, _, h2⟩
      · exact mInvoke_error h1
      · rcases M_bind_error h2 with h3 | ⟨t, s2, _, h4⟩
        · simp at h3
        · exact ih h4
    · rw [if_neg hc] at h
      simp at h

theorem calLoop_ok_cap {alg : List ℤ → Except JsErr Unit} {clock : ℕ → ℚ}
    {arr : List ℤ} {calStart : ℚ} (halg : alg arr = .ok ()) :
    ∀ (fuel : ℕ) (calEnd : ℚ) (calCount : ℕ) (s : MSt),
      ∃ e c s', calLoop alg clock arr calStart fuel calEnd calCount s =
          .ok ((e, c), s') ∧ c ≤ calCount + fuel ∧
          (5 ≤ e - calStart ∨ c = calCount + fuel) := by
  intro fuel
  induction fuel with
  | zero =>
    intro ce cc s
    exact ⟨ce, cc, s, by simp [calLoop], by omega, Or.inr (by omega)⟩
  | succ fuel ih =>
    intro ce cc s
    by_cases hc : ce - calStart < 5
    · obtain ⟨e, c, s', heq, hle, hd⟩ :=
        ih (clock s.tick) (cc + 1)
          ⟨s.tick + 1, (s.trace ++ [.invoke arr]) ++ [.now]⟩
      refine ⟨e, c, s', ?_, by omega, ?_⟩
      · rw [calLoop, if_pos hc, M_bind_apply, mInvoke_ok halg]
        show (mNow clock >>= fun e1 =>
          calLoop alg clock arr calStart fuel e1 (cc + 1))
            ⟨s.tick, s.trace ++ [.invoke arr]⟩ = _
        rw [M_bind_apply, mNow_apply]
        exact heq
      · rcases hd with hd | hd
        · exact Or.inl hd
        · exact Or.inr (by omega)
    · refine ⟨ce, cc, s, ?_, by omega, Or.inl (not_lt.mp hc)⟩
      rw [calLoop, if_neg hc]
      rfl

theorem calLoop_zero {alg : List ℤ → Except JsErr Unit} {clock : ℕ → ℚ}
    {arr : List ℤ} (halg : alg arr = .ok ()) (hclk : ∀ k, clock k = 0) :
    ∀ (fuel calCount : ℕ) (s : MSt),
      ∃ s', calLoop alg clock arr 0 fuel 0 calCount s =
        .ok ((0, calCount + fuel), s') := by
  intro fuel
  induction fuel with
  | zero =>
    intro cc s
    exact ⟨s, by simp [calLoop]⟩
  | succ fuel ih =>
    intro cc s
    obtain ⟨s', heq⟩ := ih (cc + 1)
      ⟨s.tick + 1, (s.trace ++ [.invoke arr]) ++ [.now]⟩
    refine ⟨s', ?_⟩
    rw [calLoop, if_pos (by norm_num)]
    refine M_bind_ok_intro (mInvoke_ok halg s) ?_
    refine M_bind_ok_intro (mNow_apply clock _) ?_
    have hcount : cc + 1 + fuel = cc + (fuel + 1) := by omega
    rw [← hcount]
    have hck : clock (⟨s.tick, s.trace ++ [.invoke arr]⟩ : MSt).tick = 0 :=
      hclk _
    rw [hck]
    exact heq

theorem runIters_error {alg : List ℤ → Except JsErr Unit} {clock : ℕ → ℚ}
    {n : ℤ} {b : ℤ} {e : JsErr} :
    ∀ {k : ℕ} {s : MSt},
      runIters alg clock n b k s = .error e →
      alg (generateInputArray n) = .error e := by
  intro k
  induction k with
  | zero =>
    intro s h
    simp [runIters] at h
  | succ k ih =>
    intro s h
    rw [runIters] at h
    rcases M_bind_error h with h1 | ⟨a, s1, _, h2⟩
    · simp at h1
    · rcases M_bind_error h2 with h3 | ⟨t, s2, _, h4⟩
      · exact repeatM_error h3
      · rcases M_bind_error h4 with h5 | ⟨u, s3, _, h6⟩
        · simp at h5
        · rcases M_bind_error h6 with h7 | ⟨v, s4, _, h8⟩
          · exact ih h7
          · simp at h8

theorem runIters_ok_len {alg : List ℤ → Except JsErr Unit} {clock : ℕ → ℚ}
    {n : ℤ} {b : ℤ} :
    ∀ {k : ℕ} {s : MSt} {times : List ℚ} {s' : MSt},
      runIters alg clock n b k s = .ok (times, s') → times.length = k := by
  intro k
  induction k with
  | zero =>
    intro s times s' h
    simp [runIters] at h
    rw [h.1]
    rfl
  | succ k ih =>
    intro s times s' h
    rw [runIters] at h
    rcases M_bind_ok h with ⟨a, s1, _, h2⟩
    rcases M_bind_ok h2 with ⟨t, s2, _, h4⟩
    rcases M_bind_ok h4 with ⟨u, s3, _, h6⟩
    rcases M_bind_ok h6 with ⟨v, s4, hv, h8⟩
    simp at h8
    rw [← h8.1]
    simpa using ih hv

theorem runIters_zero {alg : List ℤ → Except JsErr Unit} {clock : ℕ → ℚ}
    {n : ℤ} {b : ℤ} (halg : ∀ a, alg a = .ok ())
    (hclk : ∀ k, clock k = 0) :
    ∀ (k : ℕ) (s : MSt),
      ∃ s', runIters alg clock n b k s = .ok (List.replicate k 0, s') := by
  intro k
  induction k with
  | zero =>
    intro s
    exact ⟨s, by simp [runIters]⟩
  | succ k ih =>
    intro s
    obtain ⟨s', heq⟩ := ih
      ⟨s.tick + 2, ((s.trace ++ [.now]) ++
        List.replicate b.toNat (.invoke (generateInputArray n))) ++ [.now]⟩
    refine ⟨s', ?_⟩
    simp only [runIters]
    refine M_bind_ok_intro (mNow_apply clock s) ?_
    refine M_bind_ok_intro (repeatM_ok (halg _) b.toNat _) ?_
    refine M_bind_ok_intro (mNow_apply clock _) ?_
    refine M_bind_ok_intro heq ?_
    rw [M_pure_apply]
    simp only [hclk, List.replicate_succ]
    norm_num

theorem ssMeanQ_replicate_zero (k : ℕ) (hk : k ≠ 0) :
    ssMeanQ (List.replicate k 0) = .ok 0 := by
  rw [ssMeanQ, if_neg (by simp [hk])]
  simp

theorem measureOne_error {alg : List ℤ → Except JsErr Unit} {clock : ℕ → ℚ}
    {iters : ℕ} {n : ℤ} {s : MSt} {e : JsErr} (hit : iters ≠ 0)
    (h : measureOne alg clock iters n s = .error e) :
    ∃ arr, alg arr = .error e := by
  rw [measureOne] at h
  rcases M_bind_error h with h1 | ⟨a, s1, _, h2⟩
  · simp at h1
  · rcases M_bind_error h2 with h3 | ⟨r, s2, _, h4⟩
    · exact ⟨_, calLoop_error h3⟩
    · rcases M_bind_error h4 with h5 | ⟨times, s3, htimes, h6⟩
      · exact ⟨_, runIters_error h5⟩
      · rcases M_bind_error h6 with h7 | ⟨v, s4, _, h8⟩
        · exfalso
          have hlen := runIters_ok_len htimes
          have := liftE_error h7
          rw [ssMeanQ, if_neg (by
            intro hnil
            apply hit
            rw [← hlen, hnil]
            rfl)] at this
          simp at this
        · simp at h8

theorem measureOne_zero {alg : List ℤ → Except JsErr Unit} {clock : ℕ → ℚ}
    {iters : ℕ} (halg : ∀ a, alg a = .ok ())
    (hclk : ∀ k, clock k = 0) (hit : iters ≠ 0) (n : ℤ) (s : MSt) :
    ∃ s', measureOne alg clock iters n s = .ok (⟨n, 0⟩, s') := by
  obtain ⟨s2, hcal⟩ := calLoop_zero (halg (generateInputArray n)) hclk
    1000000 0 ⟨s.tick + 1, s.trace ++ [.now]⟩
  obtain ⟨s3, hrun⟩ := runIters_zero
    (b := if 1 < ((0 : ℚ), (0 + 1000000 : ℕ)).2 then
      ⌈(15 * ((((0 : ℚ), (0 + 1000000 : ℕ)).2 : ℕ) : ℚ)) /
        jsOrQ (((0 : ℚ), (0 + 1000000 : ℕ)).1 - 0) (1 / 1000)⌉ else 1)
    halg hclk iters s2
  refine ⟨s3, ?_⟩
  simp only [measureOne]
  refine M_bind_ok_intro (mNow_apply clock s) ?_
  rw [hclk]
  refine M_bind_ok_intro hcal ?_
  refine M_bind_ok_intro hrun ?_
  refine M_bind_ok_intro (show liftE (ssMeanQ (List.replicate iters 0)) s3 =
    .ok ((0 : ℚ), s3) by rw [ssMeanQ_replicate_zero iters hit]; rfl) ?_
  rfl

theorem runSizes_error {alg : List ℤ → Except JsErr Unit} {clock : ℕ → ℚ}
    {iters : ℕ} {e : JsErr} (hit : iters ≠ 0) :
    ∀ {sizes : List ℤ} {s : MSt},
      runSizes alg clock iters sizes s = .error e →
      ∃ arr, alg arr = .error e := by
  intro sizes
  induction sizes with
  | nil =>
    intro s h
    simp [runSizes] at h
  | cons n rest ih =>
    intro s h
    rw [runSizes] at h
    rcases M_bind_error h with h1 | ⟨p, s1, _, h2⟩
    · exact measureOne_error hit h1
    · rcases M_bind_error h2 with h3 | ⟨ps, s2, _, h4⟩
      · exact ih h3
      · simp at h4

theorem runSizes_ok_len {alg : List ℤ → Except JsErr Unit} {clock : ℕ → ℚ}
    {iters : ℕ} :
    ∀ {sizes : List ℤ} {s : MSt} {pts : List EnginePoint} {s' : MSt},
      runSizes alg clock iters sizes s = .ok (pts, s') →
      pts.length = sizes.length := by
  intro sizes
  induction sizes with
  | nil =>
    intro s pts s' h
    simp [runSizes] at h
    rw [h.1]
    rfl
  | cons n rest ih =>
    intro s pts s' h
    rw [runSizes] at h
    rcases M_bind_ok h with ⟨p, s1, _, h2⟩
    rcases M_bind_ok h2 with ⟨ps, s2, hps, h4⟩
    simp at h4
    rw [← h4.1]
    simpa using ih hps

theorem runSizes_zero {alg : List ℤ → Except JsErr Unit} {clock : ℕ → ℚ}
    {iters : ℕ} (halg : ∀ a, alg a = .ok ())
    (hclk : ∀ k, clock k = 0) (hit : iters ≠ 0) :
    ∀ (sizes : List ℤ) (s : MSt),
      ∃ s', runSizes alg clock iters sizes s =
        .ok (sizes.map (fun n => ⟨n, 0⟩), s') := by
  intro sizes
  induction sizes with
  | nil =>
    intro s
    exact ⟨s, by simp [runSizes]⟩
  | cons n rest ih =>
    intro s
    obtain ⟨s1, hone⟩ := measureOne_zero halg hclk hit n s
    obtain ⟨s2, hrest⟩ := ih s1
    refine ⟨s2, ?_⟩
    rw [runSizes]
    refine M_bind_ok_intro hone ?_
    refine M_bind_ok_intro hrest ?_
    rfl

theorem runIters_ok_exists {alg : List ℤ → Except JsErr Unit}
    {clock : ℕ → ℚ} {n : ℤ} {b : ℤ} (halg : ∀ a, alg a = .ok ()) :
    ∀ (k : ℕ) (s : MSt), ∃ times s',
      runIters alg clock n b k s = .ok (times, s') ∧ times.length = k := by
  intro k
  induction k with
  | zero =>
    intro s
    exact ⟨[], s, by simp [runIters], rfl⟩
  | succ k ih =>
    intro s
    obtain ⟨times, s', hrun, hlen⟩ := ih
      ⟨s.tick + 2, ((s.trace ++ [.now]) ++
        List.replicate b.toNat (.invoke (generateInputArray n))) ++ [.now]⟩
    refine ⟨((clock (s.tick + 1) - clock s.tick) / (b : ℚ)) :: times, s',
      ?_, by simp [hlen]⟩
    simp only [runIters]
    refine M_bind_ok_intro (mNow_apply clock s) ?_
    refine M_bind_ok_intro (repeatM_ok (halg _) b.toNat _) ?_
    refine M_bind_ok_intro (mNow_apply clock _) ?_
    refine M_bind_ok_intro hrun ?_
    rfl

theorem measureOne_ok_exists {alg : List ℤ → Except JsErr Unit}
    {clock : ℕ → ℚ} {iters : ℕ} (halg : ∀ a, alg a = .ok ())
    (hit : iters ≠ 0) (n : ℤ) (s : MSt) :
    ∃ p s', measureOne alg clock iters n s = .ok (p, s') := by
  obtain ⟨e, c, s2, hcal, _, _⟩ := calLoop_ok_cap (halg (generateInputArray n))
    1000000 (clock s.tick) 0 ⟨s.tick + 1, s.trace ++ [.now]⟩
  obtain ⟨times, s3, hrun, hlen⟩ := runIters_ok_exists
    (b := if 1 < c then
      ⌈(15 * (c : ℚ)) / jsOrQ (e - clock s.tick) (1 / 1000)⌉ else 1)
    halg iters s2
  have hne : times ≠ [] := by
    intro hnil
    apply hit
    rw [← hlen, hnil]
    rfl
  refine ⟨⟨n, times.sum / times.length⟩, s3, ?_⟩
  simp only [measureOne]
  refine M_bind_ok_intro (mNow_apply clock s) ?_
  refine M_bind_ok_intro hcal ?_
  refine M_bind_ok_intro hrun ?_
  refine M_bind_ok_intro (show liftE (ssMeanQ times) s3 =
    .ok (times.sum / times.length, s3) by
      rw [ssMeanQ, if_neg hne]; rfl) ?_
  rfl

theorem runSizes_ok_exists {alg : List ℤ → Except JsErr Unit}
    {clock : ℕ → ℚ} {iters : ℕ} (halg : ∀ a, alg a = .ok ())
    (hit : iters ≠ 0) :
    ∀ (sizes : List ℤ) (s : MSt), ∃ pts s',
      runSizes alg clock iters sizes s = .ok (pts, s') ∧
      pts.length = sizes.length := by
  intro sizes
  induction sizes with
  | nil =>
    intro s
    exact ⟨[], s, by simp [runSizes], rfl⟩
  | cons n rest ih =>
    intro s
    obtain ⟨p, s1, hone⟩ := measureOne_ok_exists halg hit n s
    obtain ⟨pts, s2, hrest, hlen⟩ := ih s1
    refine ⟨p :: pts, s2, ?_, by simp [hlen]⟩
    rw [runSizes]
    refine M_bind_ok_intro hone ?_
    refine M_bind_ok_intro hrest ?_
    rfl

theorem warmup_nil (alg : List ℤ → Except JsErr Unit) (s : MSt) :
    warmup alg [] s = .ok ((), s) := by
  rw [warmup]
  simp [repeatM]

theorem warmup_ok_trace {alg : List ℤ → Except JsErr Unit}
    {sizes : List ℤ} (hne : sizes ≠ [])
    (halg : alg (generateInputArray sizes.headI) = .ok ()) (s : MSt) :
    warmup alg sizes s = .ok ((),
      ⟨s.tick, s.trace ++
        List.replicate 100 (.invoke (generateInputArray sizes.headI))⟩) := by
  rw [warmup, if_pos (List.length_pos.mpr hne)]
  exact repeatM_ok halg 100 s

theorem warmup_error {alg : List ℤ → Except JsErr Unit} {sizes : List ℤ}
    {s : MSt} {e : JsErr} (h : warmup alg sizes s = .error e) :
    ∃ arr, alg arr = .error e := by
  rw [warmup] at h
  by_cases hlen : 0 < sizes.length
  · rw [if_pos hlen] at h
    exact ⟨_, repeatM_error h⟩
  · rw [if_neg hlen] at h
    simp at h

theorem runAnalysis_error {alg : List ℤ → Except JsErr Unit}
    {clock : ℕ → ℚ} {sizes : List ℤ} {iters : ℕ} {s : MSt} {e : JsErr}
    (hit : iters ≠ 0) (h : runAnalysis alg clock sizes iters s = .error e) :
    ∃ arr, alg arr = .error e := by
  rw [runAnalysis] at h
  rcases M_bind_error h with h1 | ⟨u, s1, _, h2⟩
  · exact warmup_error h1
  · exact runSizes_error hit h2

theorem runAnalysis_ok_len {alg : List ℤ → Except JsErr Unit}
    {clock : ℕ → ℚ} {sizes : List ℤ} {iters : ℕ} {s : MSt}
    {pts : List EnginePoint} {s' : MSt}
    (h : runAnalysis alg clock sizes iters s = .ok (pts, s')) :
    pts.length = sizes.length := by
  rw [runAnalysis] at h
  rcases M_bind_ok h with ⟨u, s1, _, h2⟩
  exact runSizes_ok_len h2

theorem runAnalysis_ok_exists {alg : List ℤ → Except JsErr Unit}
    {clock : ℕ → ℚ} {iters : ℕ} (halg : ∀ a, alg a = .ok ())
    (hit : iters ≠ 0) (sizes : List ℤ) (s : MSt) :
    ∃ pts s', runAnalysis alg clock sizes iters s = .ok (pts, s') ∧
      pts.length = sizes.length := by
  cases sizes with
  | nil =>
    obtain ⟨pts, s', h, hlen⟩ := runSizes_ok_exists halg hit [] s
    refine ⟨pts, s', ?_, hlen⟩
    rw [runAnalysis]
    exact M_bind_ok_intro (warmup_nil alg s) h
  | cons m rest =>
    have hne : (m :: rest) ≠ [] := by simp
    obtain ⟨pts, s', h, hlen⟩ := runSizes_ok_exists halg hit (m :: rest)
      ⟨s.tick, s.trace ++
        List.replicate 100 (.invoke (generateInputArray (m :: rest).headI))⟩
    refine ⟨pts, s', ?_, hlen⟩
    rw [runAnalysis]
    exact M_bind_ok_intro (warmup_ok_trace hne (halg _) s) h

theorem runAnalysis_zero {alg : List ℤ → Except JsErr Unit}
    {clock : ℕ → ℚ} (halg : ∀ a, alg a = .ok ())
    (hclk : ∀ k, clock k = 0) {iters : ℕ} (hit : iters ≠ 0)
    (sizes : List ℤ) (s : MSt) :
    ∃ s', runAnalysis alg clock sizes iters s =
      .ok (sizes.map (fun n => ⟨n, 0⟩), s') := by
  cases sizes with
  | nil =>
    obtain ⟨s', h⟩ := runSizes_zero halg hclk hit [] s
    refine ⟨s', ?_⟩
    rw [runAnalysis]
    exact M_bind_ok_intro (warmup_nil alg s) h
  | cons m rest =>
    have hne : (m :: rest) ≠ [] := by simp
    obtain ⟨s', h⟩ := runSizes_zero halg hclk hit (m :: rest)
      ⟨s.tick, s.trace ++
        List.replicate 100 (.invoke (generateInputArray (m :: rest).headI))⟩
    refine ⟨s', ?_⟩
    rw [runAnalysis]
    exact M_bind_ok_intro (warmup_ok_trace hne (halg _) s) h

/-! ## Claims C4, C6, C8, C9 -/

/-- Evaluation of a run whose algorithm always throws: the run aborts
during warm-up with the original exception. -/
theorem runAnalysis_throw7_eval :
    runAnalysis algThrow7 clkFast [3] 1 st0 = .error (.userError 7) := by
  decide

/-- Claim C4 (amended): when the algorithm under test throws, the engine
aborts the sweep and surfaces the algorithm's own exception unchanged —
there is no `AlgorithmExecutionError` wrapper anywhere in the code — and
a successful run always returns exactly one data point per requested size
(no partial sequences). -/
theorem claim_C4 :
    (∀ (alg : List ℤ → Except JsErr Unit) (clock : ℕ → ℚ)
      (sizes : List ℤ) (iters : ℕ) (s : MSt) (e : JsErr), iters ≠ 0 →
      runAnalysis alg clock sizes iters s = .error e →
      ∃ arr, alg arr = .error e) ∧
    (∀ (alg : List ℤ → Except JsErr Unit) (clock : ℕ → ℚ)
      (sizes : List ℤ) (iters : ℕ) (s : MSt) (pts : List EnginePoint)
      (s' : MSt),
      runAnalysis alg clock sizes iters s = .ok (pts, s') →
      pts.length = sizes.length) :=
  ⟨fun _ _ _ _ _ _ hit h => runAnalysis_error hit h,
   fun _ _ _ _ _ _ _ h => runAnalysis_ok_len h⟩

/-- Witness for C4 (amended): a concrete throwing algorithm; the surfaced
error is the algorithm's own. -/
theorem claim_C4_witness :
    (1 : ℕ) ≠ 0 ∧ ∃ arr, algThrow7 arr = .error (.userError 7) :=
  ⟨by norm_num,
   claim_C4.1 algThrow7 clkFast [3] 1 st0 (.userError 7) (by norm_num)
     runAnalysis_throw7_eval⟩

/-- Counterexample for C4 as stated: the error surfaced by the run is the
algorithm's original exception itself, not an `AlgorithmExecutionError`
wrapping it. -/
theorem claim_C4_counterexample :
    runAnalysis algThrow7 clkFast [3] 1 st0 = .error (.userError 7) ∧
    JsErr.isAlgorithmExecutionError (.userError 7) = false :=
  ⟨runAnalysis_throw7_eval, rfl⟩

/-- Claim C6 (amended): negative sizes are not validated anywhere — no
`InvalidSizeError` exists.  `generateInputArray` returns the empty array
for every negative size (ECMAScript clamps a negative array length to 0),
and `runAnalysis` happily measures the algorithm on that empty workload,
returning a normal data point for every requested size. -/
theorem claim_C6 :
    (∀ n : ℤ, n < 0 → generateInputArray n = []) ∧
    (∀ (alg : List ℤ → Except JsErr Unit) (clock : ℕ → ℚ)
      (sizes : List ℤ) (iters : ℕ) (s : MSt),
      (∀ a, alg a = .ok ()) → iters ≠ 0 →
      ∃ pts s', runAnalysis alg clock sizes iters s = .ok (pts, s') ∧
        pts.length = sizes.length) := by
  constructor
  · intro n hn
    simp [generateInputArray, Int.toNat_eq_zero.mpr (le_of_lt hn)]
  · intro alg clock sizes iters s halg hit
    exact runAnalysis_ok_exists halg hit sizes s

/-- Witness for C6 (amended): size `-5`. -/
theorem claim_C6_witness :
    ((-5 : ℤ) < 0 ∧ generateInputArray (-5) = []) ∧
    ((∀ a, algOk a = .ok ()) ∧ (1 : ℕ) ≠ 0 ∧
      ∃ pts s', runAnalysis algOk clkFast [-5] 1 st0 = .ok (pts, s') ∧
        pts.length = ([-5] : List ℤ).length) :=
  ⟨⟨by norm_num, claim_C6.1 (-5) (by norm_num)⟩,
   ⟨fun _ => rfl, by norm_num,
    claim_C6.2 algOk clkFast [-5] 1 st0 (fun _ => rfl) (by norm_num)⟩⟩

set_option maxHeartbeats 1000000 in
/-- Counterexample for C6 as stated: a sweep over the negative size `-5`
returns a data point (measured on the empty workload) instead of raising
an `InvalidSizeError`. -/
theorem claim_C6_counterexample :
    generateInputArray (-5) = [] ∧
    runAnalysis algOk clkFast [-5] 1 st0 =
      .ok ([⟨-5, 10⟩],
        ⟨4, List.replicate 100 (.invoke []) ++
          [.now, .invoke [], .now, .now, .invoke [], .now]⟩) := by
  constructor
  · rfl
  · rw [runAnalysis]
    refine M_bind_ok_intro (warmup_ok_trace (by simp) rfl st0) ?_
    rw [runSizes]
    refine M_bind_ok_intro (show measureOne algOk clkFast 1 (-5)
        ⟨0, List.replicate 100 (.invoke [])⟩ =
        .ok (⟨-5, 10⟩, ⟨4, List.replicate 100 (.invoke []) ++
          [.now, .invoke [], .now, .now, .invoke [], .now]⟩) from ?_) ?_
    · simp only [measureOne]
      refine M_bind_ok_intro (show mNow clkFast
          ⟨0, List.replicate 100 (.invoke [])⟩ =
          .ok ((0 : ℚ), ⟨1, List.replicate 100 (.invoke []) ++ [.now]⟩)
          from by rw [mNow_apply]; norm_num [clkFast]) ?_
      refine M_bind_ok_intro (show calLoop algOk clkFast
          (generateInputArray (-5)) 0 1000000 0 0
          ⟨1, List.replicate 100 (.invoke []) ++ [.now]⟩ =
          .ok (((10 : ℚ), 1), ⟨2, List.replicate 100 (.invoke []) ++
            [.now, .invoke [], .now]⟩) from ?_) ?_
      · rw [calLoop, if_pos (by norm_num)]
        refine M_bind_ok_intro (mInvoke_ok rfl _) ?_
        refine M_bind_ok_intro (show mNow clkFast
            ⟨1, (List.replicate 100 (.invoke []) ++ [.now]) ++ [.invoke []]⟩ =
            .ok ((10 : ℚ), ⟨2, List.replicate 100 (.invoke []) ++
              [.now, .invoke [], .now]⟩)
            from by rw [mNow_apply]; norm_num [clkFast, List.append_assoc]) ?_
        rw [calLoop, if_neg (by norm_num)]
        rfl
      · refine M_bind_ok_intro (show runIters algOk clkFast (-5) 1 1
            ⟨2, List.replicate 100 (.invoke []) ++ [.now, .invoke [], .now]⟩ =
            .ok ([(10 : ℚ)], ⟨4, List.replicate 100 (.invoke []) ++
              [.now, .invoke [], .now, .now, .invoke [], .now]⟩)
            from ?_) ?_
        · simp only [runIters]
          refine M_bind_ok_intro (show mNow clkFast
              ⟨2, List.replicate 100 (.invoke []) ++ [.now, .invoke [], .now]⟩ =
              .ok ((20 : ℚ), ⟨3, List.replicate 100 (.invoke []) ++
                [.now, .invoke [], .now, .now]⟩)
              from by rw [mNow_apply]; simp [clkFast]; norm_num) ?_
          refine M_bind_ok_intro (show
              repeatM (mInvoke algOk (generateInputArray (-5))) (1 : ℤ).toNat
                ⟨3, List.replicate 100 (.invoke []) ++
                  [.now, .invoke [], .now, .now]⟩ =
              .ok ((), ⟨3, List.replicate 100 (.invoke []) ++
                [.now, .invoke [], .now, .now, .invoke []]⟩)
              from by
                rw [repeatM_ok rfl]
                rfl) ?_
          refine M_bind_ok_intro (show mNow clkFast
              ⟨3, List.replicate 100 (.invoke []) ++
                [.now, .invoke [], .now, .now, .invoke []]⟩ =
              .ok ((30 : ℚ), ⟨4, List.replicate 100 (.invoke []) ++
                [.now, .invoke [], .now, .now, .invoke [], .now]⟩)
              from by rw [mNow_apply]; simp [clkFast]; norm_num) ?_
          refine M_bind_ok_intro (show runIters algOk clkFast (-5) 1 0
              ⟨4, List.replicate 100 (.invoke []) ++
                [.now, .invoke [], .now, .now, .invoke [], .now]⟩ =
              .ok (([] : List ℚ), ⟨4, List.replicate 100 (.invoke []) ++
                [.now, .invoke [], .now, .now, .invoke [], .now]⟩)
              from by simp [runIters]) ?_
          rw [M_pure_apply]
          norm_num
        · refine M_bind_ok_intro (show liftE (ssMeanQ [(10 : ℚ)])
              ⟨4, List.replicate 100 (.invoke []) ++
                [.now, .invoke [], .now, .now, .invoke [], .now]⟩ =
              .ok ((10 : ℚ), ⟨4, List.replicate 100 (.invoke []) ++
                [.now, .invoke [], .now, .now, .invoke [], .now]⟩)
              from by norm_num [ssMeanQ, liftE]) ?_
          rfl
    · refine M_bind_ok_intro (show runSizes algOk clkFast 1 []
          ⟨4, List.replicate 100 (.invoke []) ++
            [.now, .invoke [], .now, .now, .invoke [], .now]⟩ =
          .ok (([] : List EnginePoint), ⟨4, List.replicate 100 (.invoke []) ++
            [.now, .invoke [], .now, .now, .invoke [], .now]⟩)
          from by simp [runSizes]) ?_
      rfl

/-- Claim C8 (amended): the warm-up phase generates the workload for the
*first* requested size (`inputSizes[0]`, which is the smallest only when
the list is sorted ascending), invokes the algorithm exactly 100 times on
it (satisfying the "at least 50" part) before any clock read happens
(the clock counter is untouched and the trace gains only invoke events),
is skipped when the size list is empty, and precedes the per-size
measurement loop in `runAnalysis`. -/
theorem claim_C8 :
    (∀ (alg : List ℤ → Except JsErr Unit) (sizes : List ℤ) (s : MSt),
      sizes ≠ [] → alg (generateInputArray sizes.headI) = .ok () →
      warmup alg sizes s = .ok ((),
        ⟨s.tick, s.trace ++
          List.replicate 100 (.invoke (generateInputArray sizes.headI))⟩)) ∧
    (∀ (alg : List ℤ → Except JsErr Unit) (s : MSt),
      warmup alg [] s = .ok ((), s)) ∧
    (∀ (alg : List ℤ → Except JsErr Unit) (clock : ℕ → ℚ)
      (sizes : List ℤ) (iters : ℕ),
      runAnalysis alg clock sizes iters =
        warmup alg sizes >>= fun _ => runSizes alg clock iters sizes) :=
  ⟨fun _ _ s hne halg => warmup_ok_trace hne halg s,
   warmup_nil,
   fun _ _ _ _ => rfl⟩

/-- Witness for C8 (amended): warm-up over the unsorted size list `[4, 2]`
touches the workload of the first size, 4. -/
theorem claim_C8_witness :
    (([4, 2] : List ℤ) ≠ []) ∧
    algOk (generateInputArray (([4, 2] : List ℤ)).headI) = .ok () ∧
    warmup algOk [4, 2] st0 =
      .ok ((), ⟨0, List.replicate 100 (.invoke [0, 1, 2, 3])⟩) := by
  refine ⟨by simp, rfl, ?_⟩
  have h := claim_C8.1 algOk [4, 2] st0 (by simp) rfl
  simpa using h

/-- Counterexample for C8 as stated: with sizes `[4, 2]` and an algorithm
that throws an exception tagged with its workload's length, the run
aborts with tag 4 — the warm-up touched the workload of the *first* size.
Under the spec's warm-up (smallest size first), the same run aborts with
tag 2. -/
theorem claim_C8_counterexample :
    runAnalysis algSizeErr clkFast [4, 2] 1 st0 = .error (.userError 4) ∧
    runAnalysisSpecWarm algSizeErr clkFast [4, 2] 1 st0 =
      .error (.userError 2) ∧
    JsErr.userError 4 ≠ JsErr.userError 2 := by
  refine ⟨by decide, by decide, by decide⟩

/-- Claim C9: the calibration loop always terminates — with the source's
entry values (`calCount = 0`, cap `1000000`) it returns a count of at
most 1000000 and stops either because the elapsed time reached the 5-unit
threshold or because the invocation cap was reached — and on a clock that
never advances the engine still proceeds with the count reached rather
than failing: the whole run returns a data point (with duration 0) for
every requested size. -/
theorem claim_C9 :
    (∀ (alg : List ℤ → Except JsErr Unit) (clock : ℕ → ℚ) (arr : List ℤ)
      (calStart calEnd : ℚ) (s : MSt), alg arr = .ok () →
      ∃ e c s', calLoop alg clock arr calStart 1000000 calEnd 0 s =
          .ok ((e, c), s') ∧ c ≤ 1000000 ∧
          (5 ≤ e - calStart ∨ c = 1000000)) ∧
    (∀ (alg : List ℤ → Except JsErr Unit) (clock : ℕ → ℚ)
      (sizes : List ℤ) (iters : ℕ) (s : MSt),
      (∀ a, alg a = .ok ()) → (∀ k, clock k = 0) → iters ≠ 0 →
      ∃ s', runAnalysis alg clock sizes iters s =
        .ok (sizes.map (fun n => ⟨n, 0⟩), s')) := by
  constructor
  · intro alg clock arr calStart calEnd s halg
    obtain ⟨e, c, s', heq, hle, hd⟩ := calLoop_ok_cap halg 1000000 calEnd 0 s
    refine ⟨e, c, s', heq, by omega, ?_⟩
    rcases hd with hd | hd
    · exact Or.inl hd
    · exact Or.inr (by omega)
  · intro alg clock sizes iters s halg hclk hit
    exact runAnalysis_zero halg hclk hit sizes s

/-- Witness for C9: a trivial algorithm on the never-advancing clock. -/
theorem claim_C9_witness :
    (algOk [0] = .ok ()) ∧ (∀ a, algOk a = .ok ()) ∧
    (∀ k, clkZero k = 0) ∧ (1 : ℕ) ≠ 0 ∧
    (∃ e c s', calLoop algOk clkZero [0] 0 1000000 0 0 st0 =
        .ok ((e, c), s') ∧ c ≤ 1000000 ∧ (5 ≤ e - 0 ∨ c = 1000000)) ∧
    (∃ s', runAnalysis algOk clkZero [3] 1 st0 =
      .ok ([⟨3, 0⟩], s')) := by
  refine ⟨rfl, fun _ => rfl, fun _ => rfl, by norm_num,
    claim_C9.1 algOk clkZero [0] 0 0 st0 rfl, ?_⟩
  have h := claim_C9.2 algOk clkZero [3] 1 st0 (fun _ => rfl)
    (fun _ => rfl) (by norm_num)
  simpa using h

/-! ## Claim C3 -/

/-- The classifier completes without raising on every non-empty series:
its only fallible steps are the statistics aggregates, which succeed on
non-empty input; the arithmetic itself (however degenerate) never throws
in JavaScript. -/
theorem determineComplexity_isOk (pts : List DataPoint) (hne : pts ≠ []) :
    (determineComplexity pts).isOk = true := by
  have hmap_ne : pts.map (fun d => d.time) ≠ [] := by
    simpa using hne
  obtain ⟨x, xs, hx⟩ := List.exists_cons_of_ne_nil hmap_ne
  simp only [determineComplexity, hx,
    ssMean_ne_nil _ (List.cons_ne_nil x xs), jsOkBind,
    ssVariance_ne_nil _ (List.cons_ne_nil x xs), ssMax_cons]
  rfl

/-- Claim C3 (evidence for the code bug): on the series
`[(0,1),(2,2),(4,3)]` the classifier does not raise, but the data point
with `n = 0` is *not* excluded from the Logarithmic and Linearithmic
regressions: `Math.log 0 = -Infinity` (resp. `0 · Math.log 0 = NaN`)
enters the OLS sums, the slope and intercept become `NaN`, and both
models' RMSEs are `NaN` — non-finite values propagate into the result,
contrary to the claim. -/
theorem claim_C3 :
    (determineComplexity ptsZeroDP).isOk = true ∧
    jsnGetRegressionRMSE ptsZero jsnLogTr = .nan ∧
    jsnGetRegressionRMSE ptsZero jsnNLogNTr = .nan := by
  refine ⟨determineComplexity_isOk ptsZeroDP (by simp [ptsZeroDP]), ?_, ?_⟩
  · norm_num [jsnGetRegressionRMSE, jsnLogTr, jsnLog, jsnLinearRegression,
      jsnSum, jsnAdd, jsnMul, jsnSub, jsnNeg, jsnDiv, jsnSqrt,
      jsnCalculateRMSE, ptsZero]
  · norm_num [jsnGetRegressionRMSE, jsnNLogNTr, jsnLog, jsnLinearRegression,
      jsnSum, jsnAdd, jsnMul, jsnSub, jsnNeg, jsnDiv, jsnSqrt,
      jsnCalculateRMSE, ptsZero]

/-! ## Square-root comparison helpers for concrete RMSE values -/

theorem jsOr_of_ne {x : ℝ} (d : ℝ) (h : x ≠ 0) : jsOr x d = x := by
  rw [jsOr, if_neg h]

theorem sqrt_not_le {a b : ℝ} (hb : 0 ≤ b) (h : b < a) :
    ¬(Real.sqrt a ≤ Real.sqrt b) :=
  not_le.mpr (Real.sqrt_lt_sqrt hb h)

theorem sqrt_scaled_lt {qa qb k : ℝ} (ha : 0 ≤ qa) (hk : 0 ≤ k)
    (h : qa < k ^ 2 * qb) : Real.sqrt qa < k * Real.sqrt qb := by
  have hks : k * Real.sqrt qb = Real.sqrt (k ^ 2 * qb) := by
    rw [Real.sqrt_mul (by positivity), Real.sqrt_sq hk]
  rw [hks]
  exact Real.sqrt_lt_sqrt ha h

theorem sqrt_scaled_le {qa qb k : ℝ} (hk : 0 ≤ k)
    (h : k ^ 2 * qb ≤ qa) : k * Real.sqrt qb ≤ Real.sqrt qa := by
  have hks : k * Real.sqrt qb = Real.sqrt (k ^ 2 * qb) := by
    rw [Real.sqrt_mul (by positivity), Real.sqrt_sq hk]
  rw [hks]
  exact Real.sqrt_le_sqrt h

/-- The Occam tolerance test succeeds whenever the squared RMSEs satisfy
`400·qa < 529·qb` (i.e. `rmse_a < 1.15·rmse_b`). -/
theorem occam_diff_lt {qa qb : ℝ} (hb : 0 < qb) (ha : 0 ≤ qa)
    (h : 400 * qa < 529 * qb) :
    (Real.sqrt qa - Real.sqrt qb) / jsOr (Real.sqrt qb) (1e-9) < 0.15 := by
  have hsb : 0 < Real.sqrt qb := Real.sqrt_pos.mpr hb
  rw [jsOr_of_ne _ (ne_of_gt hsb), div_lt_iff hsb]
  have := sqrt_scaled_lt ha (show (0 : ℝ) ≤ 1.15 by norm_num)
    (show qa < (1.15 : ℝ) ^ 2 * qb by nlinarith)
  nlinarith [this]

/-- The Occam tolerance test fails whenever `529·qb ≤ 400·qa`
(i.e. `1.15·rmse_b ≤ rmse_a`). -/
theorem occam_diff_ge {qa qb : ℝ} (hb : 0 < qb)
    (h : 529 * qb ≤ 400 * qa) :
    ¬((Real.sqrt qa - Real.sqrt qb) / jsOr (Real.sqrt qb) (1e-9) < 0.15) := by
  have hsb : 0 < Real.sqrt qb := Real.sqrt_pos.mpr hb
  rw [jsOr_of_ne _ (ne_of_gt hsb), div_lt_iff hsb]
  have := sqrt_scaled_le (show (0 : ℝ) ≤ 1.15 by norm_num)
    (show (1.15 : ℝ) ^ 2 * qb ≤ qa by nlinarith)
  intro hc
  nlinarith [this]

/-- Pointwise equal transforms give equal regression RMSEs (the helper
only ever evaluates the transform at the points). -/
theorem getRegressionRMSE_congr {pts : List DataPoint} {f g : ℝ → ℝ}
    (h : ∀ d ∈ pts, f d.n = g d.n) :
    getRegressionRMSE pts f = getRegressionRMSE pts g := by
  have hdata : pts.map (fun d => (f d.n, d.time)) =
      pts.map (fun d => (g d.n, d.time)) :=
    List.map_congr_left (fun d hd => by rw [h d hd])
  rw [getRegressionRMSE, getRegressionRMSE, hdata]
  have hpred : ∀ model : ℝ × ℝ, pts.map
      (fun d => ssLinearRegressionLine model (f d.n)) =
      pts.map (fun d => ssLinearRegressionLine model (g d.n)) :=
    fun model => List.map_congr_left (fun d hd => by rw [h d hd])
  rw [hpred]

/-- Rescaling the abscissa by a nonzero constant leaves every OLS
prediction — hence the regression RMSE — unchanged. -/
theorem getRegressionRMSE_scale (pts : List DataPoint) (f : ℝ → ℝ)
    (c : ℝ) (hc : c ≠ 0) :
    getRegressionRMSE pts (fun x => c * f x) = getRegressionRMSE pts f := by
  rw [getRegressionRMSE, getRegressionRMSE]
  by_cases h1 : pts.length = 1
  · obtain ⟨d, hd⟩ := List.length_eq_one.mp h1
    subst hd
    simp [ssLinearRegression, ssLinearRegressionLine]
  · set X := (pts.map (fun d => f d.n))
    have hlen : (pts.map (fun d => (c * f d.n, d.time))).length ≠ 1 := by
      simpa using h1
    have hlen' : (pts.map (fun d => (f d.n, d.time))).length ≠ 1 := by
      simpa using h1
    rw [ssLinearRegression, if_neg hlen, ssLinearRegression, if_neg hlen']
    simp only [List.map_map]
    set L : ℝ := ((pts.map (fun d => (c * f d.n, d.time))).length : ℝ) with hL
    have hLeq : ((pts.map (fun d => (f d.n, d.time))).length : ℝ) = L := by
      simp [hL]
    rw [hLeq]
    have hx : pts.map ((fun p : ℝ × ℝ => p.1) ∘ fun d => (c * f d.n, d.time)) =
        pts.map (fun d => c * f d.n) := rfl
    have hx' : pts.map ((fun p : ℝ × ℝ => p.1) ∘ fun d => (f d.n, d.time)) =
        pts.map (fun d => f d.n) := rfl
    have hy : pts.map ((fun p : ℝ × ℝ => p.2) ∘ fun d => (c * f d.n, d.time)) =
        pts.map (fun d => d.time) := rfl
    have hy' : pts.map ((fun p : ℝ × ℝ => p.2) ∘ fun d => (f d.n, d.time)) =
        pts.map (fun d => d.time) := rfl
    have hxx : pts.map ((fun p : ℝ × ℝ => p.1 * p.1) ∘
        fun d => (c * f d.n, d.time)) =
        pts.map (fun d => (c * f d.n) * (c * f d.n)) := rfl
    have hxx' : pts.map ((fun p : ℝ × ℝ => p.1 * p.1) ∘
        fun d => (f d.n, d.time)) =
        pts.map (fun d => f d.n * f d.n) := rfl
    have hxy : pts.map ((fun p : ℝ × ℝ => p.1 * p.2) ∘
        fun d => (c * f d.n, d.time)) =
        pts.map (fun d => (c * f d.n) * d.time) := rfl
    have hxy' : pts.map ((fun p : ℝ × ℝ => p.1 * p.2) ∘
        fun d => (f d.n, d.time)) =
        pts.map (fun d => f d.n * d.time) := rfl
    rw [hx, hx', hy, hy', hxx, hxx', hxy, hxy']
    have hsumx : (pts.map (fun d => c * f d.n)).sum =
        c * (pts.map (fun d => f d.n)).sum := by
      rw [← List.sum_map_mul_left]
    have hsumxx : (pts.map (fun d => (c * f d.n) * (c * f d.n))).sum =
        (c * c) * (pts.map (fun d => f d.n * f d.n)).sum := by
      rw [← List.sum_map_mul_left]
      exact congrArg List.sum (List.map_congr_left (fun d _ => by ring))
    have hsumxy : (pts.map (fun d => (c * f d.n) * d.time)).sum =
        c * (pts.map (fun d => f d.n * d.time)).sum := by
      rw [← List.sum_map_mul_left]
      exact congrArg List.sum (List.map_congr_left (fun d _ => by ring))
    rw [hsumx, hsumxx, hsumxy]
    set sx := (pts.map (fun d => f d.n)).sum
    set sy := (pts.map (fun d => d.time)).sum
    set sxx := (pts.map (fun d => f d.n * f d.n)).sum
    set sxy := (pts.map (fun d => f d.n * d.time)).sum
    set m := (L * sxy - sx * sy) / (L * sxx - sx * sx) with hm
    have hkey : (L * (c * sxy) - c * sx * sy) /
        (L * (c * c * sxx) - c * sx * (c * sx)) * c = m := by
      have hnum : L * (c * sxy) - c * sx * sy = c * (L * sxy - sx * sy) := by
        ring
      have hden : L * (c * c * sxx) - c * sx * (c * sx) =
          c ^ 2 * (L * sxx - sx * sx) := by
        ring
      rw [hnum, hden, hm]
      rcases eq_or_ne (L * sxx - sx * sx) 0 with hD | hD
      · rw [hD]
        simp
      · field_simp
        ring
    have hpred : pts.map (fun d => ssLinearRegressionLine
        ((L * (c * sxy) - c * sx * sy) /
            (L * (c * c * sxx) - c * sx * (c * sx)),
          sy / L - (L * (c * sxy) - c * sx * sy) /
            (L * (c * c * sxx) - c * sx * (c * sx)) * (c * sx) / L)
        (c * f d.n)) =
        pts.map (fun d => ssLinearRegressionLine
          (m, sy / L - m * sx / L) (f d.n)) := by
      apply List.map_congr_left
      intro d _
      rw [ssLinearRegressionLine, ssLinearRegressionLine]
      have h2 : (L * (c * sxy) - c * sx * sy) /
          (L * (c * c * sxx) - c * sx * (c * sx)) * (c * f d.n) =
          m * f d.n := by
        rw [← hkey]
        ring
      have h3 : (L * (c * sxy) - c * sx * sy) /
          (L * (c * c * sxx) - c * sx * (c * sx)) * (c * sx) =
          m * sx := by
        rw [← hkey]
        ring
      rw [h2, h3]
    rw [hpred]

/-! ## Exact RMSE values on the two concrete datasets -/

theorem ptsA_mean : ssMean (ptsA.map (fun d => d.time)) = .ok (1 / 3) := by
  rw [show ptsA.map (fun d => d.time) = [0, 1, 0] from rfl, ssMean,
    if_neg (by simp)]
  norm_num

theorem ptsA_constRMSE :
    calculateRMSE (ptsA.map (fun d => d.time))
      ((ptsA.map (fun d => d.n)).map (fun _ => (1 / 3 : ℝ))) =
      Real.sqrt (2 / 9) := by
  norm_num [calculateRMSE, ptsA]

theorem ptsA_linRMSE :
    getRegressionRMSE ptsA (fun n => n) = Real.sqrt (49 / 258) := by
  norm_num [getRegressionRMSE, ssLinearRegression, ssLinearRegressionLine,
    calculateRMSE, ptsA]

theorem ptsA_quadRMSE :
    getRegressionRMSE ptsA (fun n => n ^ 2) = Real.sqrt (147 / 842) := by
  norm_num [getRegressionRMSE, ssLinearRegression, ssLinearRegressionLine,
    calculateRMSE, ptsA]

theorem log_two_ne_zero : Real.log 2 ≠ 0 :=
  ne_of_gt (Real.log_pos (by norm_num))

theorem log_four : Real.log 4 = Real.log 2 * 2 := by
  rw [show (4 : ℝ) = 2 ^ 2 by norm_num, Real.log_pow]
  push_cast
  ring

theorem log_sixteen : Real.log 16 = Real.log 2 * 4 := by
  rw [show (16 : ℝ) = 2 ^ 4 by norm_num, Real.log_pow]
  push_cast
  ring

theorem log_thirtytwo : Real.log 32 = Real.log 2 * 5 := by
  rw [show (32 : ℝ) = 2 ^ 5 by norm_num, Real.log_pow]
  push_cast
  ring

theorem ptsA_logRMSE :
    getRegressionRMSE ptsA (fun n => Real.log n) = Real.sqrt (3 / 14) := by
  have hcongr : getRegressionRMSE ptsA (fun n => Real.log n) =
      getRegressionRMSE ptsA (fun n => Real.log 2 *
        (if n = 2 then 1 else if n = 4 then 2 else 4)) := by
    apply getRegressionRMSE_congr
    intro d hd
    simp only [ptsA, List.mem_cons, List.not_mem_nil, or_false] at hd
    rcases hd with rfl | rfl | rfl
    · norm_num
    · norm_num [log_four]
      try ring
    · norm_num [log_sixteen]
      try ring
  rw [hcongr, getRegressionRMSE_scale _ _ (Real.log 2) log_two_ne_zero]
  norm_num [getRegressionRMSE, ssLinearRegression, ssLinearRegressionLine,
    calculateRMSE, ptsA]

theorem ptsA_nlognRMSE :
    getRegressionRMSE ptsA (fun n => n * Real.log n) =
      Real.sqrt (961 / 5262) := by
  have hcongr : getRegressionRMSE ptsA (fun n => n * Real.log n) =
      getRegressionRMSE ptsA (fun n => Real.log 2 *
        (if n = 2 then 2 else if n = 4 then 8 else 64)) := by
    apply getRegressionRMSE_congr
    intro d hd
    simp only [ptsA, List.mem_cons, List.not_mem_nil, or_false] at hd
    rcases hd with rfl | rfl | rfl
    · norm_num
      ring
    · norm_num [log_four]
      try ring
    · norm_num [log_sixteen]
      try ring
  rw [hcongr, getRegressionRMSE_scale _ _ (Real.log 2) log_two_ne_zero]
  norm_num [getRegressionRMSE, ssLinearRegression, ssLinearRegressionLine,
    calculateRMSE, ptsA]

theorem ptsB_mean : ssMean (ptsB.map (fun d => d.time)) = .ok (227 / 2) := by
  rw [show ptsB.map (fun d => d.time) = [99, 108, 112, 135] from rfl, ssMean,
    if_neg (by simp)]
  norm_num

theorem ptsB_constRMSE :
    calculateRMSE (ptsB.map (fun d => d.time))
      ((ptsB.map (fun d => d.n)).map (fun _ => (227 / 2 : ℝ))) =
      Real.sqrt (705 / 4) := by
  norm_num [calculateRMSE, ptsB]

theorem ptsB_linRMSE :
    getRegressionRMSE ptsB (fun n => n) = Real.sqrt (13393 / 1142) := by
  norm_num [getRegressionRMSE, ssLinearRegression, ssLinearRegressionLine,
    calculateRMSE, ptsB]

theorem ptsB_quadRMSE :
    getRegressionRMSE ptsB (fun n => n ^ 2) = Real.sqrt (362917 / 38438) := by
  norm_num [getRegressionRMSE, ssLinearRegression, ssLinearRegressionLine,
    calculateRMSE, ptsB]

theorem ptsB_logRMSE :
    getRegressionRMSE ptsB (fun n => Real.log n) = Real.sqrt (637 / 20) := by
  have hcongr : getRegressionRMSE ptsB (fun n => Real.log n) =
      getRegressionRMSE ptsB (fun n => Real.log 2 *
        (if n = 2 then 1 else if n = 4 then 2 else if n = 16 then 4 else 5)) := by
    apply getRegressionRMSE_congr
    intro d hd
    simp only [ptsB, List.mem_cons, List.not_mem_nil, or_false] at hd
    rcases hd with rfl | rfl | rfl | rfl
    · norm_num
    · norm_num [log_four]
      try ring
    · norm_num [log_sixteen]
      try ring
    · norm_num [log_thirtytwo]
      try ring
  rw [hcongr, getRegressionRMSE_scale _ _ (Real.log 2) log_two_ne_zero]
  norm_num [getRegressionRMSE, ssLinearRegression, ssLinearRegressionLine,
    calculateRMSE, ptsB]

/-! ## Generic bounds on the classifier's confidence computation -/

theorem jsRound_le_100 {x : ℝ} (h : x ≤ 100) : jsRound x ≤ 100 := by
  rw [jsRound]
  calc ⌊x + 1 / 2⌋ ≤ ⌊(100 : ℝ) + 1 / 2⌋ := Int.floor_le_floor (by linarith)
    _ = 100 := by rw [Int.floor_eq_iff]; constructor <;> norm_num

/-- The blended confidence formula of the source cannot exceed 100 when
the fit-quality and separation terms are at most 1 (they are unbounded
below, which is exactly the defect shown on `ptsA`). -/
theorem jsRound_blend_le_100 (fq sep : ℝ) (hfq : fq ≤ 1) (hsep : sep ≤ 1) :
    jsRound ((fq * 0.7 + sep * 0.3) * 100) ≤ 100 :=
  jsRound_le_100 (by nlinarith)

theorem mem_orderedInsertBy {α : Type _} {k : α → ℝ} {a x : α} :
    ∀ {l : List α}, x ∈ orderedInsertBy k a l → x = a ∨ x ∈ l := by
  intro l
  induction l with
  | nil =>
    intro h
    simp only [orderedInsertBy, List.mem_singleton] at h
    exact Or.inl h
  | cons b t ih =>
    intro h
    simp only [orderedInsertBy] at h
    split_ifs at h with hle
    · rcases List.mem_cons.mp h with rfl | hm
      · exact Or.inl rfl
      · exact Or.inr hm
    · rcases List.mem_cons.mp h with rfl | hm
      · exact Or.inr (List.mem_cons_self _ _)
      · rcases ih hm with rfl | hm2
        · exact Or.inl rfl
        · exact Or.inr (List.mem_cons_of_mem _ hm2)

theorem mem_jsSortBy {α : Type _} {k : α → ℝ} {x : α} :
    ∀ {l : List α}, x ∈ jsSortBy k l → x ∈ l := by
  intro l
  induction l with
  | nil => intro h; simpa [jsSortBy] using h
  | cons b t ih =>
    intro h
    simp only [jsSortBy] at h
    rcases mem_orderedInsertBy h with rfl | hm
    · exact List.mem_cons_self _ _
    · exact List.mem_cons_of_mem _ (ih hm)

theorem headI_mem {α : Type _} [Inhabited α] {l : List α} (h : l ≠ []) :
    l.headI ∈ l := by
  cases l with
  | nil => exact absurd rfl h
  | cons a t => exact List.mem_cons_self _ _

theorem jsSortBy_cons_ne_nil {α : Type _} {k : α → ℝ} {a : α} {l : List α} :
    jsSortBy k (a :: l) ≠ [] := by
  simp only [jsSortBy]
  generalize jsSortBy k l = t
  cases t with
  | nil => simp [orderedInsertBy]
  | cons b u =>
    simp only [orderedInsertBy]
    split_ifs <;> simp

/-- `occamStep` with the `let` and the `match` of the source spelled out
through `Option.elim`; definitional unfolding. -/
theorem occamStep_eq (models : List ModelEntry) (meanTime : ℝ)
    (best candidate b1 : ModelEntry)
    (hb1 : b1 = if candidate.complexity < best.complexity then
        if (candidate.rmse - best.rmse) / jsOr best.rmse (1e-9) < 0.15 then
          candidate
        else best
      else best) :
    occamStep models meanTime best candidate =
      if jsIncludes b1.type "O(log n)" then
        (models.find? (fun m => jsIncludes m.type "O(1)")).elim b1 (fun o1 =>
          if o1.rmse < b1.rmse * 3 then
            if b1.rmse / (if meanTime > 0 then meanTime else 1) < 0.1 then o1
            else b1
          else b1)
      else b1 := by
  subst hb1
  cases hfind : models.find? (fun m => jsIncludes m.type "O(1)") with
  | none => simp only [occamStep, hfind, Option.elim]
  | some o1 => simp only [occamStep, hfind, Option.elim]

/-- Every property shared by the current best, the candidate and all the
models of the sorted array is preserved by one Occam iteration (the result
is always one of those three sources). -/
theorem occamStep_pred {P : ModelEntry → Prop} {models : List ModelEntry}
    {mt : ℝ} {best cand : ModelEntry} (hm : ∀ y ∈ models, P y)
    (hb : P best) (hc : P cand) : P (occamStep models mt best cand) := by
  rw [occamStep_eq models mt best cand _ rfl]
  rcases hfind : models.find? (fun m => jsIncludes m.type "O(1)") with _ | o1
  · simp only [hfind, Option.elim]
    split_ifs <;> assumption
  · have ho1 := hm o1 (List.mem_of_find?_eq_some hfind)
    simp only [hfind, Option.elim]
    split_ifs <;> assumption

theorem foldl_occamStep_pred {P : ModelEntry → Prop}
    {models : List ModelEntry} {mt : ℝ} (hm : ∀ y ∈ models, P y) :
    ∀ (l : List ModelEntry) (acc : ModelEntry), (∀ y ∈ l, P y) → P acc →
      P (l.foldl (occamStep models mt) acc) := by
  intro l
  induction l with
  | nil => intro acc _ hacc; exact hacc
  | cons a t ih =>
    intro acc hl hacc
    rw [List.foldl_cons]
    exact ih _ (fun y hy => hl y (List.mem_cons_of_mem _ hy))
      (occamStep_pred hm hacc (hl a (List.mem_cons_self _ _)))

/-- The model selected by the flat-series override / Occam loop always
carries a non-negative RMSE when every model of the sorted array does. -/
theorem bestModel_rmse_nonneg (sorted : List ModelEntry) (mt : ℝ)
    (flat : Prop) [Decidable flat] (hs : ∀ y ∈ sorted, 0 ≤ y.rmse)
    (hne : sorted ≠ []) :
    0 ≤ (if flat then
        ((sorted.find? (fun m => jsIncludes m.type "O(1)")).getD
          ((sorted.drop 1).foldl (occamStep sorted mt) sorted.headI))
      else
        ((sorted.drop 1).foldl (occamStep sorted mt) sorted.headI)).rmse := by
  have hloop : 0 ≤
      ((sorted.drop 1).foldl (occamStep sorted mt) sorted.headI).rmse :=
    foldl_occamStep_pred hs _ _
      (fun y hy => hs y (List.drop_subset _ _ hy)) (hs _ (headI_mem hne))
  split_ifs with hf
  · rcases hfind : sorted.find? (fun m => jsIncludes m.type "O(1)")
      with _ | x
    · simp only [hfind, Option.getD]
      exact hloop
    · simp only [hfind, Option.getD]
      exact hs x (List.mem_of_find?_eq_some hfind)
  · exact hloop

theorem ptsB_nlognRMSE :
    getRegressionRMSE ptsB (fun n => n * Real.log n) =
      Real.sqrt (316717 / 32150) := by
  have hcongr : getRegressionRMSE ptsB (fun n => n * Real.log n) =
      getRegressionRMSE ptsB (fun n => Real.log 2 *
        (if n = 2 then 2 else if n = 4 then 8 else if n = 16 then 64
          else 160)) := by
    apply getRegressionRMSE_congr
    intro d hd
    simp only [ptsB, List.mem_cons, List.not_mem_nil, or_false] at hd
    rcases hd with rfl | rfl | rfl | rfl
    · norm_num
      ring
    · norm_num [log_four]
      try ring
    · norm_num [log_sixteen]
      try ring
    · norm_num [log_thirtytwo]
      try ring
  rw [hcongr, getRegressionRMSE_scale _ _ (Real.log 2) log_two_ne_zero]
  norm_num [getRegressionRMSE, ssLinearRegression, ssLinearRegressionLine,
    calculateRMSE, ptsB]

/-! ## Full classifier evaluation on the dataset `ptsA` -/

theorem sqrt_le_scaled {qa qb k : ℝ} (hk : 0 ≤ k) (h : qa ≤ k ^ 2 * qb) :
    Real.sqrt qa ≤ k * Real.sqrt qb := by
  have hks : k * Real.sqrt qb = Real.sqrt (k ^ 2 * qb) := by
    rw [Real.sqrt_mul (by positivity), Real.sqrt_sq hk]
  rw [hks]
  exact Real.sqrt_le_sqrt h

theorem scaled_lt_sqrt {qa qb k : ℝ} (hb : 0 ≤ qb) (hk : 0 ≤ k)
    (h : k ^ 2 * qb < qa) : k * Real.sqrt qb < Real.sqrt qa := by
  have hks : k * Real.sqrt qb = Real.sqrt (k ^ 2 * qb) := by
    rw [Real.sqrt_mul (by positivity), Real.sqrt_sq hk]
  rw [hks]
  exact Real.sqrt_lt_sqrt (mul_nonneg (sq_nonneg k) hb) h

theorem ptsA_var : ssVariance (ptsA.map fun d => d.time) = .ok (2 / 9) := by
  rw [show ptsA.map (fun d => d.time) = [0, 1, 0] from rfl, ssVariance,
    if_neg (by simp)]
  norm_num

theorem ptsA_max : ssMax (ptsA.map fun d => d.time) = .ok 1 := by
  rw [show ptsA.map (fun d => d.time) = [0, 1, 0] from rfl, ssMax_cons]
  norm_num [List.foldl, max_def]

/-- The rmse-ascending stable sort of the five models fitted to `ptsA`:
Quadratic < Linearithmic < Linear < Logarithmic < Constant. -/
theorem sortA_eval :
    jsSortBy (fun m : ModelEntry => m.rmse)
      [⟨"O(1) - Constant", Real.sqrt (2 / 9), 1⟩,
       ⟨"O(log n) - Logarithmic", Real.sqrt (3 / 14), 2⟩,
       ⟨"O(n) - Linear", Real.sqrt (49 / 258), 3⟩,
       ⟨"O(n log n) - Linear-ithmic", Real.sqrt (961 / 5262), 4⟩,
       ⟨"O(n^2) - Quadratic", Real.sqrt (147 / 842), 5⟩] =
      [⟨"O(n^2) - Quadratic", Real.sqrt (147 / 842), 5⟩,
       ⟨"O(n log n) - Linear-ithmic", Real.sqrt (961 / 5262), 4⟩,
       ⟨"O(n) - Linear", Real.sqrt (49 / 258), 3⟩,
       ⟨"O(log n) - Logarithmic", Real.sqrt (3 / 14), 2⟩,
       ⟨"O(1) - Constant", Real.sqrt (2 / 9), 1⟩] := by
  have h1 : ¬(Real.sqrt (961 / 5262 : ℝ) ≤ Real.sqrt (147 / 842 : ℝ)) :=
    sqrt_not_le (by norm_num) (by norm_num)
  have h2 : ¬(Real.sqrt (49 / 258 : ℝ) ≤ Real.sqrt (147 / 842 : ℝ)) :=
    sqrt_not_le (by norm_num) (by norm_num)
  have h3 : ¬(Real.sqrt (49 / 258 : ℝ) ≤ Real.sqrt (961 / 5262 : ℝ)) :=
    sqrt_not_le (by norm_num) (by norm_num)
  have h4 : ¬(Real.sqrt (3 / 14 : ℝ) ≤ Real.sqrt (147 / 842 : ℝ)) :=
    sqrt_not_le (by norm_num) (by norm_num)
  have h5 : ¬(Real.sqrt (3 / 14 : ℝ) ≤ Real.sqrt (961 / 5262 : ℝ)) :=
    sqrt_not_le (by norm_num) (by norm_num)
  have h6 : ¬(Real.sqrt (3 / 14 : ℝ) ≤ Real.sqrt (49 / 258 : ℝ)) :=
    sqrt_not_le (by norm_num) (by norm_num)
  have h7 : ¬(Real.sqrt (2 / 9 : ℝ) ≤ Real.sqrt (147 / 842 : ℝ)) :=
    sqrt_not_le (by norm_num) (by norm_num)
  have h8 : ¬(Real.sqrt (2 / 9 : ℝ) ≤ Real.sqrt (961 / 5262 : ℝ)) :=
    sqrt_not_le (by norm_num) (by norm_num)
  have h9 : ¬(Real.sqrt (2 / 9 : ℝ) ≤ Real.sqrt (49 / 258 : ℝ)) :=
    sqrt_not_le (by norm_num) (by norm_num)
  have h10 : ¬(Real.sqrt (2 / 9 : ℝ) ≤ Real.sqrt (3 / 14 : ℝ)) :=
    sqrt_not_le (by norm_num) (by norm_num)
  have e1 : orderedInsertBy (fun m : ModelEntry => m.rmse)
      ⟨"O(n log n) - Linear-ithmic", Real.sqrt (961 / 5262), 4⟩
      [⟨"O(n^2) - Quadratic", Real.sqrt (147 / 842), 5⟩] =
      [⟨"O(n^2) - Quadratic", Real.sqrt (147 / 842), 5⟩,
       ⟨"O(n log n) - Linear-ithmic", Real.sqrt (961 / 5262), 4⟩] := by
    simp only [orderedInsertBy]
    rw [if_neg h1]
  have e2 : orderedInsertBy (fun m : ModelEntry => m.rmse)
      ⟨"O(n) - Linear", Real.sqrt (49 / 258), 3⟩
      [⟨"O(n^2) - Quadratic", Real.sqrt (147 / 842), 5⟩,
       ⟨"O(n log n) - Linear-ithmic", Real.sqrt (961 / 5262), 4⟩] =
      [⟨"O(n^2) - Quadratic", Real.sqrt (147 / 842), 5⟩,
       ⟨"O(n log n) - Linear-ithmic", Real.sqrt (961 / 5262), 4⟩,
       ⟨"O(n) - Linear", Real.sqrt (49 / 258), 3⟩] := by
    simp only [orderedInsertBy]
    rw [if_neg h2, if_neg h3]
  have e3 : orderedInsertBy (fun m : ModelEntry => m.rmse)
      ⟨"O(log n) - Logarithmic", Real.sqrt (3 / 14), 2⟩
      [⟨"O(n^2) - Quadratic", Real.sqrt (147 / 842), 5⟩,
       ⟨"O(n log n) - Linear-ithmic", Real.sqrt (961 / 5262), 4⟩,
       ⟨"O(n) - Linear", Real.sqrt (49 / 258), 3⟩] =
      [⟨"O(n^2) - Quadratic", Real.sqrt (147 / 842), 5⟩,
       ⟨"O(n log n) - Linear-ithmic", Real.sqrt (961 / 5262), 4⟩,
       ⟨"O(n) - Linear", Real.sqrt (49 / 258), 3⟩,
       ⟨"O(log n) - Logarithmic", Real.sqrt (3 / 14), 2⟩] := by
    simp only [orderedInsertBy]
    rw [if_neg h4, if_neg h5, if_neg h6]
  have e4 : orderedInsertBy (fun m : ModelEntry => m.rmse)
      ⟨"O(1) - Constant", Real.sqrt (2 / 9), 1⟩
      [⟨"O(n^2) - Quadratic", Real.sqrt (147 / 842), 5⟩,
       ⟨"O(n log n) - Linear-ithmic", Real.sqrt (961 / 5262), 4⟩,
       ⟨"O(n) - Linear", Real.sqrt (49 / 258), 3⟩,
       ⟨"O(log n) - Logarithmic", Real.sqrt (3 / 14), 2⟩] =
      [⟨"O(n^2) - Quadratic", Real.sqrt (147 / 842), 5⟩,
       ⟨"O(n log n) - Linear-ithmic", Real.sqrt (961 / 5262), 4⟩,
       ⟨"O(n) - Linear", Real.sqrt (49 / 258), 3⟩,
       ⟨"O(log n) - Logarithmic", Real.sqrt (3 / 14), 2⟩,
       ⟨"O(1) - Constant", Real.sqrt (2 / 9), 1⟩] := by
    simp only [orderedInsertBy]
    rw [if_neg h7, if_neg h8, if_neg h9, if_neg h10]
  simp only [jsSortBy]
  rw [show orderedInsertBy (fun m : ModelEntry => m.rmse)
      ⟨"O(n^2) - Quadratic", Real.sqrt (147 / 842), 5⟩ [] =
      [⟨"O(n^2) - Quadratic", Real.sqrt (147 / 842), 5⟩] from rfl,
    e1, e2, e3, e4]

/-- Re-sorting the already rmse-ascending model array leaves it
unchanged (the stable sort's `confidence` pass). -/
theorem resortA_eval :
    jsSortBy (fun m : ModelEntry => m.rmse)
      [⟨"O(n^2) - Quadratic", Real.sqrt (147 / 842), 5⟩,
       ⟨"O(n log n) - Linear-ithmic", Real.sqrt (961 / 5262), 4⟩,
       ⟨"O(n) - Linear", Real.sqrt (49 / 258), 3⟩,
       ⟨"O(log n) - Logarithmic", Real.sqrt (3 / 14), 2⟩,
       ⟨"O(1) - Constant", Real.sqrt (2 / 9), 1⟩] =
      [⟨"O(n^2) - Quadratic", Real.sqrt (147 / 842), 5⟩,
       ⟨"O(n log n) - Linear-ithmic", Real.sqrt (961 / 5262), 4⟩,
       ⟨"O(n) - Linear", Real.sqrt (49 / 258), 3⟩,
       ⟨"O(log n) - Logarithmic", Real.sqrt (3 / 14), 2⟩,
       ⟨"O(1) - Constant", Real.sqrt (2 / 9), 1⟩] := by
  have g1 : Real.sqrt (3 / 14 : ℝ) ≤ Real.sqrt (2 / 9 : ℝ) :=
    Real.sqrt_le_sqrt (by norm_num)
  have g2 : Real.sqrt (49 / 258 : ℝ) ≤ Real.sqrt (3 / 14 : ℝ) :=
    Real.sqrt_le_sqrt (by norm_num)
  have g3 : Real.sqrt (961 / 5262 : ℝ) ≤ Real.sqrt (49 / 258 : ℝ) :=
    Real.sqrt_le_sqrt (by norm_num)
  have g4 : Real.sqrt (147 / 842 : ℝ) ≤ Real.sqrt (961 / 5262 : ℝ) :=
    Real.sqrt_le_sqrt (by norm_num)
  have f1 : orderedInsertBy (fun m : ModelEntry => m.rmse)
      ⟨"O(log n) - Logarithmic", Real.sqrt (3 / 14), 2⟩
      [⟨"O(1) - Constant", Real.sqrt (2 / 9), 1⟩] =
      [⟨"O(log n) - Logarithmic", Real.sqrt (3 / 14), 2⟩,
       ⟨"O(1) - Constant", Real.sqrt (2 / 9), 1⟩] := by
    simp only [orderedInsertBy]
    rw [if_pos g1]
  have f2 : orderedInsertBy (fun m : ModelEntry => m.rmse)
      ⟨"O(n) - Linear", Real.sqrt (49 / 258), 3⟩
      [⟨"O(log n) - Logarithmic", Real.sqrt (3 / 14), 2⟩,
       ⟨"O(1) - Constant", Real.sqrt (2 / 9), 1⟩] =
      [⟨"O(n) - Linear", Real.sqrt (49 / 258), 3⟩,
       ⟨"O(log n) - Logarithmic", Real.sqrt (3 / 14), 2⟩,
       ⟨"O(1) - Constant", Real.sqrt (2 / 9), 1⟩] := by
    simp only [orderedInsertBy]
    rw [if_pos g2]
  have f3 : orderedInsertBy (fun m : ModelEntry => m.rmse)
      ⟨"O(n log n) - Linear-ithmic", Real.sqrt (961 / 5262), 4⟩
      [⟨"O(n) - Linear", Real.sqrt (49 / 258), 3⟩,
       ⟨"O(log n) - Logarithmic", Real.sqrt (3 / 14), 2⟩,
       ⟨"O(1) - Constant", Real.sqrt (2 / 9), 1⟩] =
      [⟨"O(n log n) - Linear-ithmic", Real.sqrt (961 / 5262), 4⟩,
       ⟨"O(n) - Linear", Real.sqrt (49 / 258), 3⟩,
       ⟨"O(log n) - Logarithmic", Real.sqrt (3 / 14), 2⟩,
       ⟨"O(1) - Constant", Real.sqrt (2 / 9), 1⟩] := by
    simp only [orderedInsertBy]
    rw [if_pos g3]
  have f4 : orderedInsertBy (fun m : ModelEntry => m.rmse)
      ⟨"O(n^2) - Quadratic", Real.sqrt (147 / 842), 5⟩
      [⟨"O(n log n) - Linear-ithmic", Real.sqrt (961 / 5262), 4⟩,
       ⟨"O(n) - Linear", Real.sqrt (49 / 258), 3⟩,
       ⟨"O(log n) - Logarithmic", Real.sqrt (3 / 14), 2⟩,
       ⟨"O(1) - Constant", Real.sqrt (2 / 9), 1⟩] =
      [⟨"O(n^2) - Quadratic", Real.sqrt (147 / 842), 5⟩,
       ⟨"O(n log n) - Linear-ithmic", Real.sqrt (961 / 5262), 4⟩,
       ⟨"O(n) - Linear", Real.sqrt (49 / 258), 3⟩,
       ⟨"O(log n) - Logarithmic", Real.sqrt (3 / 14), 2⟩,
       ⟨"O(1) - Constant", Real.sqrt (2 / 9), 1⟩] := by
    simp only [orderedInsertBy]
    rw [if_pos g4]
  simp only [jsSortBy]
  rw [show orderedInsertBy (fun m : ModelEntry => m.rmse)
      ⟨"O(1) - Constant", Real.sqrt (2 / 9), 1⟩ [] =
      [⟨"O(1) - Constant", Real.sqrt (2 / 9), 1⟩] from rfl,
    f1, f2, f3, f4]

theorem occamA_step1 :
    occamStep
      [⟨"O(n^2) - Quadratic", Real.sqrt (147 / 842), 5⟩,
       ⟨"O(n log n) - Linear-ithmic", Real.sqrt (961 / 5262), 4⟩,
       ⟨"O(n) - Linear", Real.sqrt (49 / 258), 3⟩,
       ⟨"O(log n) - Logarithmic", Real.sqrt (3 / 14), 2⟩,
       ⟨"O(1) - Constant", Real.sqrt (2 / 9), 1⟩] (1 / 3)
      ⟨"O(n^2) - Quadratic", Real.sqrt (147 / 842), 5⟩
      ⟨"O(n log n) - Linear-ithmic", Real.sqrt (961 / 5262), 4⟩ =
      ⟨"O(n log n) - Linear-ithmic", Real.sqrt (961 / 5262), 4⟩ := by
  have ht : (Real.sqrt (961 / 5262) - Real.sqrt (147 / 842)) /
      jsOr (Real.sqrt (147 / 842)) (1e-9) < 0.15 :=
    occam_diff_lt (by norm_num) (by norm_num) (by norm_num)
  simp only [occamStep]
  rw [if_pos (show (4 : ℕ) < 5 by norm_num), if_pos ht]
  simp [jsIncludes_nlogn_log]

theorem occamA_step2 :
    occamStep
      [⟨"O(n^2) - Quadratic", Real.sqrt (147 / 842), 5⟩,
       ⟨"O(n log n) - Linear-ithmic", Real.sqrt (961 / 5262), 4⟩,
       ⟨"O(n) - Linear", Real.sqrt (49 / 258), 3⟩,
       ⟨"O(log n) - Logarithmic", Real.sqrt (3 / 14), 2⟩,
       ⟨"O(1) - Constant", Real.sqrt (2 / 9), 1⟩] (1 / 3)
      ⟨"O(n log n) - Linear-ithmic", Real.sqrt (961 / 5262), 4⟩
      ⟨"O(n) - Linear", Real.sqrt (49 / 258), 3⟩ =
      ⟨"O(n) - Linear", Real.sqrt (49 / 258), 3⟩ := by
  have ht : (Real.sqrt (49 / 258) - Real.sqrt (961 / 5262)) /
      jsOr (Real.sqrt (961 / 5262)) (1e-9) < 0.15 :=
    occam_diff_lt (by norm_num) (by norm_num) (by norm_num)
  simp only [occamStep]
  rw [if_pos (show (3 : ℕ) < 4 by norm_num), if_pos ht]
  simp [jsIncludes_lin_log]

theorem occamA_step3 :
    occamStep
      [⟨"O(n^2) - Quadratic", Real.sqrt (147 / 842), 5⟩,
       ⟨"O(n log n) - Linear-ithmic", Real.sqrt (961 / 5262), 4⟩,
       ⟨"O(n) - Linear", Real.sqrt (49 / 258), 3⟩,
       ⟨"O(log n) - Logarithmic", Real.sqrt (3 / 14), 2⟩,
       ⟨"O(1) - Constant", Real.sqrt (2 / 9), 1⟩] (1 / 3)
      ⟨"O(n) - Linear", Real.sqrt (49 / 258), 3⟩
      ⟨"O(log n) - Logarithmic", Real.sqrt (3 / 14), 2⟩ =
      ⟨"O(log n) - Logarithmic", Real.sqrt (3 / 14), 2⟩ := by
  have ht : (Real.sqrt (3 / 14) - Real.sqrt (49 / 258)) /
      jsOr (Real.sqrt (49 / 258)) (1e-9) < 0.15 :=
    occam_diff_lt (by norm_num) (by norm_num) (by norm_num)
  have hlt : Real.sqrt (2 / 9) < Real.sqrt (3 / 14) * 3 := by
    have h3 : Real.sqrt (2 / 9) < 3 * Real.sqrt (3 / 14) :=
      sqrt_scaled_lt (by norm_num) (by norm_num) (by norm_num)
    linarith [h3]
  have hpos13 : (1 / 3 : ℝ) > 0 := by norm_num
  have h30 : (1 / 30 : ℝ) ≤ Real.sqrt (3 / 14) := by
    rw [show (1 / 30 : ℝ) = Real.sqrt ((1 / 30) ^ 2) from
      (Real.sqrt_sq (by norm_num)).symm]
    exact Real.sqrt_le_sqrt (by norm_num)
  have hno : ¬(Real.sqrt (3 / 14) / (1 / 3) < 0.1) := by
    refine not_lt.mpr ?_
    rw [le_div_iff₀ (by norm_num : (0 : ℝ) < 1 / 3)]
    linarith [h30]
  have hbf : (false = true) = False := by simp
  simp only [occamStep]
  rw [if_pos (show (2 : ℕ) < 3 by norm_num), if_pos ht]
  simp only [List.find?, jsIncludes_log_log, jsIncludes_quad_one,
    jsIncludes_nlogn_one, jsIncludes_lin_one, jsIncludes_log_one,
    jsIncludes_const_one, hlt, hno, hpos13, hbf, if_true, if_false,
    ite_true, ite_false, eq_self_iff_true]

theorem occamA_step4 :
    occamStep
      [⟨"O(n^2) - Quadratic", Real.sqrt (147 / 842), 5⟩,
       ⟨"O(n log n) - Linear-ithmic", Real.sqrt (961 / 5262), 4⟩,
       ⟨"O(n) - Linear", Real.sqrt (49 / 258), 3⟩,
       ⟨"O(log n) - Logarithmic", Real.sqrt (3 / 14), 2⟩,
       ⟨"O(1) - Constant", Real.sqrt (2 / 9), 1⟩] (1 / 3)
      ⟨"O(log n) - Logarithmic", Real.sqrt (3 / 14), 2⟩
      ⟨"O(1) - Constant", Real.sqrt (2 / 9), 1⟩ =
      ⟨"O(1) - Constant", Real.sqrt (2 / 9), 1⟩ := by
  have ht : (Real.sqrt (2 / 9) - Real.sqrt (3 / 14)) /
      jsOr (Real.sqrt (3 / 14)) (1e-9) < 0.15 :=
    occam_diff_lt (by norm_num) (by norm_num) (by norm_num)
  simp only [occamStep]
  rw [if_pos (show (1 : ℕ) < 2 by norm_num), if_pos ht]
  simp [jsIncludes_const_log]

/-- The Occam loop on `ptsA` walks the best model all the way from
Quadratic down to Constant: every hand-over is within the 15% relative
tolerance. -/
theorem foldA_eval :
    List.foldl (occamStep
      [⟨"O(n^2) - Quadratic", Real.sqrt (147 / 842), 5⟩,
       ⟨"O(n log n) - Linear-ithmic", Real.sqrt (961 / 5262), 4⟩,
       ⟨"O(n) - Linear", Real.sqrt (49 / 258), 3⟩,
       ⟨"O(log n) - Logarithmic", Real.sqrt (3 / 14), 2⟩,
       ⟨"O(1) - Constant", Real.sqrt (2 / 9), 1⟩] (1 / 3))
      ⟨"O(n^2) - Quadratic", Real.sqrt (147 / 842), 5⟩
      [⟨"O(n log n) - Linear-ithmic", Real.sqrt (961 / 5262), 4⟩,
       ⟨"O(n) - Linear", Real.sqrt (49 / 258), 3⟩,
       ⟨"O(log n) - Logarithmic", Real.sqrt (3 / 14), 2⟩,
       ⟨"O(1) - Constant", Real.sqrt (2 / 9), 1⟩] =
      ⟨"O(1) - Constant", Real.sqrt (2 / 9), 1⟩ := by
  simp only [List.foldl]
  rw [occamA_step1, occamA_step2, occamA_step3, occamA_step4]

/-- The exact confidence of the classifier on `ptsA`: fit quality 0,
separation `(rmse_Q − rmse_C)/rmse_Q < 0` (not clamped below), rounding
to `-4`. -/
theorem confA_round :
    jsRound ((0 * 0.7 + (Real.sqrt (147 / 842) - Real.sqrt (2 / 9)) /
      Real.sqrt (147 / 842) * 0.3) * 100) = -4 := by
  have hQpos : (0 : ℝ) < Real.sqrt (147 / 842) :=
    Real.sqrt_pos.mpr (by norm_num)
  have hub : Real.sqrt (2 / 9) ≤ 1.15 * Real.sqrt (147 / 842) :=
    sqrt_le_scaled (by norm_num) (by norm_num)
  have hlb : (67 / 60 : ℝ) * Real.sqrt (147 / 842) < Real.sqrt (2 / 9) :=
    scaled_lt_sqrt (by norm_num) (by norm_num) (by norm_num)
  have key1 : (-0.15 : ℝ) ≤
      (Real.sqrt (147 / 842) - Real.sqrt (2 / 9)) / Real.sqrt (147 / 842) := by
    rw [le_div_iff₀ hQpos]
    linarith [hub]
  have key2 : (Real.sqrt (147 / 842) - Real.sqrt (2 / 9)) /
      Real.sqrt (147 / 842) < -(7 / 60) := by
    rw [div_lt_iff₀ hQpos]
    linarith [hlb]
  rw [jsRound, Int.floor_eq_iff]
  constructor
  · push_cast
    linarith [key1]
  · push_cast
    linarith [key2]

/-- Full evaluation of the classifier on `ptsA`: it succeeds, picks
Constant, and reports the **negative** confidence `-4`. -/
theorem classify_ptsA :
    ∃ R, determineComplexity ptsA =
      Except.ok ⟨"O(1) - Constant", -4, R⟩ := by
  have hpos : (1 / 3 : ℝ) > 0 := by norm_num
  have hQpos : (0 : ℝ) < Real.sqrt (147 / 842) :=
    Real.sqrt_pos.mpr (by norm_num)
  have h6 : (1 / 6 : ℝ) ≤ Real.sqrt (2 / 9) := by
    rw [show (1 / 6 : ℝ) = Real.sqrt ((1 / 6) ^ 2) from
      (Real.sqrt_sq (by norm_num)).symm]
    exact Real.sqrt_le_sqrt (by norm_num)
  have hmax0 : max 0 (1 - Real.sqrt (2 / 9) / (1 / 3) * 2) = 0 :=
    max_eq_left (by linarith [h6])
  have hne_qc : ¬((⟨"O(n^2) - Quadratic", Real.sqrt (147 / 842), 5⟩ :
      ModelEntry) = ⟨"O(1) - Constant", Real.sqrt (2 / 9), 1⟩) :=
    fun h => absurd (congrArg ModelEntry.type h) (by decide)
  have hjsr : jsOr (Real.sqrt (147 / 842)) 1 = Real.sqrt (147 / 842) :=
    jsOr_of_ne _ (ne_of_gt hQpos)
  have hmin : min 1 ((Real.sqrt (147 / 842) - Real.sqrt (2 / 9)) /
      Real.sqrt (147 / 842)) =
      (Real.sqrt (147 / 842) - Real.sqrt (2 / 9)) / Real.sqrt (147 / 842) :=
    min_eq_right ((div_le_one hQpos).mpr
      (by linarith [Real.sqrt_nonneg (2 / 9 : ℝ)]))
  have hnf : ¬(Real.sqrt (2 / 9) < 1e-9) := by
    intro hc
    have h9 : (1e-9 : ℝ) ≤ 1 / 6 := by norm_num
    linarith [h6]
  have hflat : ¬((1 : ℝ) < 0.001 ∧ (2 / 9 : ℝ) / (1 / 3) < 0.1) := by
    rintro ⟨hc, -⟩
    norm_num at hc
  simp only [determineComplexity, ptsA_mean, jsOkBind, ptsA_constRMSE,
    ptsA_linRMSE, ptsA_quadRMSE, ptsA_logRMSE, ptsA_nlognRMSE, ptsA_var,
    ptsA_max, sortA_eval, List.headI, List.drop_one, List.tail_cons,
    foldA_eval, resortA_eval, List.get?, hflat, hnf, hpos, hmax0, hne_qc,
    hjsr, hmin, if_true, if_false, ite_true, ite_false]
  simp only [confA_round]
  exact ⟨_, rfl⟩

/-! ## Claim C1 -/

/-- Counterexample for C1 as stated: `ptsA = [(2,0),(4,1),(16,0)]` has
length ≥ 2, non-negative sizes and non-negative finite durations, yet the
classifier succeeds with `confidence = -4 < 0` — the separation term is
clamped only above (`min 1 …`), never below, so the claimed range
`[0,100]` fails at the left end. -/
theorem claim_C1_counterexample :
    confOf (determineComplexity ptsA) < 0 ∧ 2 ≤ ptsA.length ∧
      ∀ d ∈ ptsA, 0 ≤ d.n ∧ 0 ≤ d.time := by
  obtain ⟨R, hR⟩ := classify_ptsA
  refine ⟨?_, by norm_num [ptsA], ?_⟩
  · rw [hR]
    norm_num [confOf]
  · intro d hd
    simp only [ptsA, List.mem_cons, List.not_mem_nil, or_false] at hd
    rcases hd with rfl | rfl | rfl <;> norm_num

set_option maxHeartbeats 2000000 in
/-- Claim C1 (amended): the confidence of every successful classification
is at most 100 — the fit quality is capped at 1 and the separation term is
clamped above by `min 1` — but it is *not* clamped below and can be
negative (see the counterexample), so only the upper end of the claimed
`[0,100]` range holds. -/
theorem claim_C1 (pts : List DataPoint) (r : AnalysisResult)
    (h : determineComplexity pts = .ok r) : r.confidence ≤ 100 := by
  simp only [determineComplexity] at h
  cases hmean : ssMean (pts.map fun d => d.time) with
  | error e =>
    rw [hmean, jsErrBind] at h
    exact Except.noConfusion h
  | ok m =>
    simp only [hmean, jsOkBind] at h
    cases hvar : ssVariance (pts.map fun d => d.time) with
    | error e =>
      rw [hvar, jsErrBind] at h
      exact Except.noConfusion h
    | ok v =>
      simp only [hvar, jsOkBind] at h
      cases hmax : ssMax (pts.map fun d => d.time) with
      | error e =>
        rw [hmax, jsErrBind] at h
        exact Except.noConfusion h
      | ok mx =>
        simp only [hmax, jsOkBind] at h
        obtain rfl := Except.ok.inj h
        have hmodels : ∀ y ∈ ([⟨"O(1) - Constant",
            calculateRMSE (pts.map fun d => d.time)
              ((pts.map fun d => d.n).map fun _ => m), 1⟩,
            ⟨"O(log n) - Logarithmic",
              getRegressionRMSE pts (fun n => Real.log n), 2⟩,
            ⟨"O(n) - Linear", getRegressionRMSE pts (fun n => n), 3⟩,
            ⟨"O(n log n) - Linear-ithmic",
              getRegressionRMSE pts (fun n => n * Real.log n), 4⟩,
            ⟨"O(n^2) - Quadratic",
              getRegressionRMSE pts (fun n => n ^ 2), 5⟩] :
            List ModelEntry), 0 ≤ y.rmse := by
          intro y hy
          simp only [List.mem_cons, List.not_mem_nil, or_false] at hy
          rcases hy with rfl | rfl | rfl | rfl | rfl
          · exact calculateRMSE_nonneg (pts.map fun d => d.time)
              ((pts.map fun d => d.n).map fun _ => m)
          · exact getRegressionRMSE_nonneg pts (fun n => Real.log n)
          · exact getRegressionRMSE_nonneg pts (fun n => n)
          · exact getRegressionRMSE_nonneg pts (fun n => n * Real.log n)
          · exact getRegressionRMSE_nonneg pts (fun n => n ^ 2)
        revert hmodels
        generalize hML : ([⟨"O(1) - Constant",
            calculateRMSE (pts.map fun d => d.time)
              ((pts.map fun d => d.n).map fun _ => m), 1⟩,
            ⟨"O(log n) - Logarithmic",
              getRegressionRMSE pts (fun n => Real.log n), 2⟩,
            ⟨"O(n) - Linear", getRegressionRMSE pts (fun n => n), 3⟩,
            ⟨"O(n log n) - Linear-ithmic",
              getRegressionRMSE pts (fun n => n * Real.log n), 4⟩,
            ⟨"O(n^2) - Quadratic",
              getRegressionRMSE pts (fun n => n ^ 2), 5⟩] :
            List ModelEntry) = M
        intro hmodels
        have hMne : M ≠ [] := by
          rw [← hML]
          simp
        have hS : ∀ y ∈ jsSortBy (fun me : ModelEntry => me.rmse) M,
            0 ≤ y.rmse := fun y hy => hmodels y (mem_jsSortBy hy)
        have hSne : jsSortBy (fun me : ModelEntry => me.rmse) M ≠ [] := by
          rcases M with _ | ⟨a, t⟩
          · exact absurd rfl hMne
          · exact jsSortBy_cons_ne_nil
        revert hS hSne
        generalize hSg : jsSortBy (fun me : ModelEntry => me.rmse) M = S
        intro hS hSne
        have hBM := bestModel_rmse_nonneg S m (mx < 0.001 ∧ v / m < 0.1)
          hS hSne
        revert hBM
        generalize hBMg : (if mx < 0.001 ∧ v / m < 0.1 then
            (S.find? fun me => jsIncludes me.type "O(1)").getD
              ((S.drop 1).foldl (occamStep S m) S.headI)
          else (S.drop 1).foldl (occamStep S m) S.headI) = BM
        intro hBM
        by_cases hnf : BM.rmse < (1e-9 : ℝ)
        · rw [if_pos hnf]
          exact jsRound_le_100 (by norm_num)
        · rw [if_neg hnf]
          have hsig : (0 : ℝ) < if m > 0 then m else 1 := by
            split_ifs with h0
            · exact h0
            · norm_num
          refine jsRound_blend_le_100 _ _ (max_le zero_le_one
            (sub_le_self 1 (mul_nonneg (div_nonneg hBM hsig.le)
              (by norm_num)))) ?_
          cases hopt :
            (if (jsSortBy (fun me : ModelEntry => me.rmse) S).headI = BM
              then (jsSortBy (fun me : ModelEntry => me.rmse) S).get? 1
              else (jsSortBy (fun me : ModelEntry => me.rmse) S).get? 0) with
          | none => exact zero_le_one
          | some sb => exact min_le_left _ _

/-- Witness for C1 (amended): the spec's flat example classifies
successfully and its confidence 100 satisfies the upper bound. -/
theorem claim_C1_witness :
    determineComplexity ptsFlat = Except.ok
      ⟨"O(1) - Constant", 100,
       [⟨"O(1) - Constant", 0⟩, ⟨"O(log n) - Logarithmic", 0⟩,
        ⟨"O(n) - Linear", 0⟩, ⟨"O(n log n) - Linear-ithmic", 0⟩,
        ⟨"O(n^2) - Quadratic", 0⟩]⟩ ∧
    (⟨"O(1) - Constant", 100,
       [⟨"O(1) - Constant", 0⟩, ⟨"O(log n) - Logarithmic", 0⟩,
        ⟨"O(n) - Linear", 0⟩, ⟨"O(n log n) - Linear-ithmic", 0⟩,
        ⟨"O(n^2) - Quadratic", 0⟩]⟩ : AnalysisResult).confidence ≤ 100 := by
  have hok : determineComplexity ptsFlat = Except.ok
      ⟨"O(1) - Constant", 100,
       [⟨"O(1) - Constant", 0⟩, ⟨"O(log n) - Logarithmic", 0⟩,
        ⟨"O(n) - Linear", 0⟩, ⟨"O(n log n) - Linear-ithmic", 0⟩,
        ⟨"O(n^2) - Quadratic", 0⟩]⟩ := by
    apply flat_classify ptsFlat 1
    · norm_num [ptsFlat]
    · norm_num
    · intro d hd
      simp only [ptsFlat, List.mem_cons, List.not_mem_nil, or_false] at hd
      rcases hd with rfl | rfl | rfl | rfl <;> rfl
    · intro d hd
      simp only [ptsFlat, List.mem_cons, List.not_mem_nil, or_false] at hd
      rcases hd with rfl | rfl | rfl | rfl <;> norm_num
    · simp only [ptsFlat, List.map_cons, List.map_nil, List.pairwise_cons,
        List.mem_cons, List.not_mem_nil, or_false, List.Pairwise.nil]
      norm_num
  exact ⟨hok, claim_C1 ptsFlat _ hok⟩

/-! ## Full classifier evaluation on the dataset `ptsB` and claim C2 -/

theorem ptsB_var : ssVariance (ptsB.map fun d => d.time) = .ok (705 / 4) := by
  rw [show ptsB.map (fun d => d.time) = [99, 108, 112, 135] from rfl,
    ssVariance, if_neg (by simp)]
  norm_num

theorem ptsB_max : ssMax (ptsB.map fun d => d.time) = .ok 135 := by
  rw [show ptsB.map (fun d => d.time) = [99, 108, 112, 135] from rfl,
    ssMax_cons]
  norm_num [List.foldl, max_def]

/-- The rmse-ascending stable sort of the five models fitted to `ptsB`:
Quadratic < Linearithmic < Linear < Logarithmic < Constant. -/
theorem sortB_eval :
    jsSortBy (fun m : ModelEntry => m.rmse)
      [⟨"O(1) - Constant", Real.sqrt (705 / 4), 1⟩,
       ⟨"O(log n) - Logarithmic", Real.sqrt (637 / 20), 2⟩,
       ⟨"O(n) - Linear", Real.sqrt (13393 / 1142), 3⟩,
       ⟨"O(n log n) - Linear-ithmic", Real.sqrt (316717 / 32150), 4⟩,
       ⟨"O(n^2) - Quadratic", Real.sqrt (362917 / 38438), 5⟩] =
      [⟨"O(n^2) - Quadratic", Real.sqrt (362917 / 38438), 5⟩,
       ⟨"O(n log n) - Linear-ithmic", Real.sqrt (316717 / 32150), 4⟩,
       ⟨"O(n) - Linear", Real.sqrt (13393 / 1142), 3⟩,
       ⟨"O(log n) - Logarithmic", Real.sqrt (637 / 20), 2⟩,
       ⟨"O(1) - Constant", Real.sqrt (705 / 4), 1⟩] := by
  have h1 : ¬(Real.sqrt (316717 / 32150 : ℝ) ≤
      Real.sqrt (362917 / 38438 : ℝ)) :=
    sqrt_not_le (by norm_num) (by norm_num)
  have h2 : ¬(Real.sqrt (13393 / 1142 : ℝ) ≤
      Real.sqrt (362917 / 38438 : ℝ)) :=
    sqrt_not_le (by norm_num) (by norm_num)
  have h3 : ¬(Real.sqrt (13393 / 1142 : ℝ) ≤
      Real.sqrt (316717 / 32150 : ℝ)) :=
    sqrt_not_le (by norm_num) (by norm_num)
  have h4 : ¬(Real.sqrt (637 / 20 : ℝ) ≤ Real.sqrt (362917 / 38438 : ℝ)) :=
    sqrt_not_le (by norm_num) (by norm_num)
  have h5 : ¬(Real.sqrt (637 / 20 : ℝ) ≤ Real.sqrt (316717 / 32150 : ℝ)) :=
    sqrt_not_le (by norm_num) (by norm_num)
  have h6 : ¬(Real.sqrt (637 / 20 : ℝ) ≤ Real.sqrt (13393 / 1142 : ℝ)) :=
    sqrt_not_le (by norm_num) (by norm_num)
  have h7 : ¬(Real.sqrt (705 / 4 : ℝ) ≤ Real.sqrt (362917 / 38438 : ℝ)) :=
    sqrt_not_le (by norm_num) (by norm_num)
  have h8 : ¬(Real.sqrt (705 / 4 : ℝ) ≤ Real.sqrt (316717 / 32150 : ℝ)) :=
    sqrt_not_le (by norm_num) (by norm_num)
  have h9 : ¬(Real.sqrt (705 / 4 : ℝ) ≤ Real.sqrt (13393 / 1142 : ℝ)) :=
    sqrt_not_le (by norm_num) (by norm_num)
  have h10 : ¬(Real.sqrt (705 / 4 : ℝ) ≤ Real.sqrt (637 / 20 : ℝ)) :=
    sqrt_not_le (by norm_num) (by norm_num)
  have e1 : orderedInsertBy (fun m : ModelEntry => m.rmse)
      ⟨"O(n log n) - Linear-ithmic", Real.sqrt (316717 / 32150), 4⟩
      [⟨"O(n^2) - Quadratic", Real.sqrt (362917 / 38438), 5⟩] =
      [⟨"O(n^2) - Quadratic", Real.sqrt (362917 / 38438), 5⟩,
       ⟨"O(n log n) - Linear-ithmic", Real.sqrt (316717 / 32150), 4⟩] := by
    simp only [orderedInsertBy]
    rw [if_neg h1]
  have e2 : orderedInsertBy (fun m : ModelEntry => m.rmse)
      ⟨"O(n) - Linear", Real.sqrt (13393 / 1142), 3⟩
      [⟨"O(n^2) - Quadratic", Real.sqrt (362917 / 38438), 5⟩,
       ⟨"O(n log n) - Linear-ithmic", Real.sqrt (316717 / 32150), 4⟩] =
      [⟨"O(n^2) - Quadratic", Real.sqrt (362917 / 38438), 5⟩,
       ⟨"O(n log n) - Linear-ithmic", Real.sqrt (316717 / 32150), 4⟩,
       ⟨"O(n) - Linear", Real.sqrt (13393 / 1142), 3⟩] := by
    simp only [orderedInsertBy]
    rw [if_neg h2, if_neg h3]
  have e3 : orderedInsertBy (fun m : ModelEntry => m.rmse)
      ⟨"O(log n) - Logarithmic", Real.sqrt (637 / 20), 2⟩
      [⟨"O(n^2) - Quadratic", Real.sqrt (362917 / 38438), 5⟩,
       ⟨"O(n log n) - Linear-ithmic", Real.sqrt (316717 / 32150), 4⟩,
       ⟨"O(n) - Linear", Real.sqrt (13393 / 1142), 3⟩] =
      [⟨"O(n^2) - Quadratic", Real.sqrt (362917 / 38438), 5⟩,
       ⟨"O(n log n) - Linear-ithmic", Real.sqrt (316717 / 32150), 4⟩,
       ⟨"O(n) - Linear", Real.sqrt (13393 / 1142), 3⟩,
       ⟨"O(log n) - Logarithmic", Real.sqrt (637 / 20), 2⟩] := by
    simp only [orderedInsertBy]
    rw [if_neg h4, if_neg h5, if_neg h6]
  have e4 : orderedInsertBy (fun m : ModelEntry => m.rmse)
      ⟨"O(1) - Constant", Real.sqrt (705 / 4), 1⟩
      [⟨"O(n^2) - Quadratic", Real.sqrt (362917 / 38438), 5⟩,
       ⟨"O(n log n) - Linear-ithmic", Real.sqrt (316717 / 32150), 4⟩,
       ⟨"O(n) - Linear", Real.sqrt (13393 / 1142), 3⟩,
       ⟨"O(log n) - Logarithmic", Real.sqrt (637 / 20), 2⟩] =
      [⟨"O(n^2) - Quadratic", Real.sqrt (362917 / 38438), 5⟩,
       ⟨"O(n log n) - Linear-ithmic", Real.sqrt (316717 / 32150), 4⟩,
       ⟨"O(n) - Linear", Real.sqrt (13393 / 1142), 3⟩,
       ⟨"O(log n) - Logarithmic", Real.sqrt (637 / 20), 2⟩,
       ⟨"O(1) - Constant", Real.sqrt (705 / 4), 1⟩] := by
    simp only [orderedInsertBy]
    rw [if_neg h7, if_neg h8, if_neg h9, if_neg h10]
  simp only [jsSortBy]
  rw [show orderedInsertBy (fun m : ModelEntry => m.rmse)
      ⟨"O(n^2) - Quadratic", Real.sqrt (362917 / 38438), 5⟩ [] =
      [⟨"O(n^2) - Quadratic", Real.sqrt (362917 / 38438), 5⟩] from rfl,
    e1, e2, e3, e4]

theorem occamB_step1 :
    occamStep
      [⟨"O(n^2) - Quadratic", Real.sqrt (362917 / 38438), 5⟩,
       ⟨"O(n log n) - Linear-ithmic", Real.sqrt (316717 / 32150), 4⟩,
       ⟨"O(n) - Linear", Real.sqrt (13393 / 1142), 3⟩,
       ⟨"O(log n) - Logarithmic", Real.sqrt (637 / 20), 2⟩,
       ⟨"O(1) - Constant", Real.sqrt (705 / 4), 1⟩] (227 / 2)
      ⟨"O(n^2) - Quadratic", Real.sqrt (362917 / 38438), 5⟩
      ⟨"O(n log n) - Linear-ithmic", Real.sqrt (316717 / 32150), 4⟩ =
      ⟨"O(n log n) - Linear-ithmic", Real.sqrt (316717 / 32150), 4⟩ := by
  have ht : (Real.sqrt (316717 / 32150) - Real.sqrt (362917 / 38438)) /
      jsOr (Real.sqrt (362917 / 38438)) (1e-9) < 0.15 :=
    occam_diff_lt (by norm_num) (by norm_num) (by norm_num)
  simp only [occamStep]
  rw [if_pos (show (4 : ℕ) < 5 by norm_num), if_pos ht]
  simp [jsIncludes_nlogn_log]

theorem occamB_step2 :
    occamStep
      [⟨"O(n^2) - Quadratic", Real.sqrt (362917 / 38438), 5⟩,
       ⟨"O(n log n) - Linear-ithmic", Real.sqrt (316717 / 32150), 4⟩,
       ⟨"O(n) - Linear", Real.sqrt (13393 / 1142), 3⟩,
       ⟨"O(log n) - Logarithmic", Real.sqrt (637 / 20), 2⟩,
       ⟨"O(1) - Constant", Real.sqrt (705 / 4), 1⟩] (227 / 2)
      ⟨"O(n log n) - Linear-ithmic", Real.sqrt (316717 / 32150), 4⟩
      ⟨"O(n) - Linear", Real.sqrt (13393 / 1142), 3⟩ =
      ⟨"O(n) - Linear", Real.sqrt (13393 / 1142), 3⟩ := by
  have ht : (Real.sqrt (13393 / 1142) - Real.sqrt (316717 / 32150)) /
      jsOr (Real.sqrt (316717 / 32150)) (1e-9) < 0.15 :=
    occam_diff_lt (by norm_num) (by norm_num) (by norm_num)
  simp only [occamStep]
  rw [if_pos (show (3 : ℕ) < 4 by norm_num), if_pos ht]
  simp [jsIncludes_lin_log]

theorem occamB_step3 :
    occamStep
      [⟨"O(n^2) - Quadratic", Real.sqrt (362917 / 38438), 5⟩,
       ⟨"O(n log n) - Linear-ithmic", Real.sqrt (316717 / 32150), 4⟩,
       ⟨"O(n) - Linear", Real.sqrt (13393 / 1142), 3⟩,
       ⟨"O(log n) - Logarithmic", Real.sqrt (637 / 20), 2⟩,
       ⟨"O(1) - Constant", Real.sqrt (705 / 4), 1⟩] (227 / 2)
      ⟨"O(n) - Linear", Real.sqrt (13393 / 1142), 3⟩
      ⟨"O(log n) - Logarithmic", Real.sqrt (637 / 20), 2⟩ =
      ⟨"O(n) - Linear", Real.sqrt (13393 / 1142), 3⟩ := by
  have ht : ¬((Real.sqrt (637 / 20) - Real.sqrt (13393 / 1142)) /
      jsOr (Real.sqrt (13393 / 1142)) (1e-9) < 0.15) :=
    occam_diff_ge (by norm_num) (by norm_num)
  simp only [occamStep]
  rw [if_pos (show (2 : ℕ) < 3 by norm_num), if_neg ht]
  simp [jsIncludes_lin_log]

theorem occamB_step4 :
    occamStep
      [⟨"O(n^2) - Quadratic", Real.sqrt (362917 / 38438), 5⟩,
       ⟨"O(n log n) - Linear-ithmic", Real.sqrt (316717 / 32150), 4⟩,
       ⟨"O(n) - Linear", Real.sqrt (13393 / 1142), 3⟩,
       ⟨"O(log n) - Logarithmic", Real.sqrt (637 / 20), 2⟩,
       ⟨"O(1) - Constant", Real.sqrt (705 / 4), 1⟩] (227 / 2)
      ⟨"O(n) - Linear", Real.sqrt (13393 / 1142), 3⟩
      ⟨"O(1) - Constant", Real.sqrt (705 / 4), 1⟩ =
      ⟨"O(n) - Linear", Real.sqrt (13393 / 1142), 3⟩ := by
  have ht : ¬((Real.sqrt (705 / 4) - Real.sqrt (13393 / 1142)) /
      jsOr (Real.sqrt (13393 / 1142)) (1e-9) < 0.15) :=
    occam_diff_ge (by norm_num) (by norm_num)
  simp only [occamStep]
  rw [if_pos (show (1 : ℕ) < 3 by norm_num), if_neg ht]
  simp [jsIncludes_lin_log]

/-- The Occam loop on `ptsB` adopts Linearithmic then Linear (both within
the 15% tolerance of the marginally better quadratic fit) and rejects
Logarithmic and Constant (far outside it): the final best is Linear. -/
theorem foldB_eval :
    List.foldl (occamStep
      [⟨"O(n^2) - Quadratic", Real.sqrt (362917 / 38438), 5⟩,
       ⟨"O(n log n) - Linear-ithmic", Real.sqrt (316717 / 32150), 4⟩,
       ⟨"O(n) - Linear", Real.sqrt (13393 / 1142), 3⟩,
       ⟨"O(log n) - Logarithmic", Real.sqrt (637 / 20), 2⟩,
       ⟨"O(1) - Constant", Real.sqrt (705 / 4), 1⟩] (227 / 2))
      ⟨"O(n^2) - Quadratic", Real.sqrt (362917 / 38438), 5⟩
      [⟨"O(n log n) - Linear-ithmic", Real.sqrt (316717 / 32150), 4⟩,
       ⟨"O(n) - Linear", Real.sqrt (13393 / 1142), 3⟩,
       ⟨"O(log n) - Logarithmic", Real.sqrt (637 / 20), 2⟩,
       ⟨"O(1) - Constant", Real.sqrt (705 / 4), 1⟩] =
      ⟨"O(n) - Linear", Real.sqrt (13393 / 1142), 3⟩ := by
  simp only [List.foldl]
  rw [occamB_step1, occamB_step2, occamB_step3, occamB_step4]

/-- Full evaluation of the classifier on `ptsB`: it succeeds and the best
fit is Linear — even though the quadratic fit's RMSE is lower. -/
theorem classify_ptsB :
    ∃ (c : ℤ) (R : List FitEntry), determineComplexity ptsB =
      Except.ok ⟨"O(n) - Linear", c, R⟩ := by
  have hflat : ¬((135 : ℝ) < 0.001 ∧ (705 / 4 : ℝ) / (227 / 2) < 0.1) := by
    rintro ⟨hc, -⟩
    norm_num at hc
  simp only [determineComplexity, ptsB_mean, jsOkBind, ptsB_constRMSE,
    ptsB_linRMSE, ptsB_quadRMSE, ptsB_logRMSE, ptsB_nlognRMSE, ptsB_var,
    ptsB_max, sortB_eval, List.headI, List.drop_one, List.tail_cons,
    foldB_eval, hflat, if_true, if_false, ite_true, ite_false]
  exact ⟨_, _, rfl⟩

/-- Claim C2: on `ptsB` — durations generated from the exact linear model
`time = n + 100` with additive noise of magnitude at most 4 — the
quadratic fit's RMSE is strictly lower than the linear fit's, but only
marginally so (within the 15% relative tolerance `(lin − quad)/quad <
0.15`), and the Occam's-razor scan therefore returns Linear, not the
lowest-RMSE model. -/
theorem claim_C2 :
    getRegressionRMSE ptsB (fun n => n ^ 2) <
      getRegressionRMSE ptsB (fun n => n) ∧
    (getRegressionRMSE ptsB (fun n => n) -
        getRegressionRMSE ptsB (fun n => n ^ 2)) /
      getRegressionRMSE ptsB (fun n => n ^ 2) < 0.15 ∧
    ∃ r, determineComplexity ptsB = .ok r ∧ r.bestFit = "O(n) - Linear" := by
  have hq : (0 : ℝ) < Real.sqrt (362917 / 38438) :=
    Real.sqrt_pos.mpr (by norm_num)
  refine ⟨?_, ?_, ?_⟩
  · rw [ptsB_quadRMSE, ptsB_linRMSE]
    exact Real.sqrt_lt_sqrt (by norm_num) (by norm_num)
  · rw [ptsB_quadRMSE, ptsB_linRMSE, div_lt_iff₀ hq]
    have hub : Real.sqrt (13393 / 1142) < 1.15 * Real.sqrt (362917 / 38438) :=
      sqrt_scaled_lt (by norm_num) (by norm_num) (by norm_num)
    linarith [hub]
  · obtain ⟨c, R, h⟩ := classify_ptsB
    exact ⟨_, h, rfl⟩

end BigO
